/-
Verification of the citation-resolution core of Citate-Genie.

This file gives a shallow embedding, in Lean 4, of the parts of the
repository that the specification's claims are about:

* `processors/author_year_extractor.py` — the citation extractor
  (regex cascade, span bookkeeping, deduplication);
* `engines/author_year_search.py` — the tiered resolver
  (`AuthorDateEngine.search`), its per-provider scoring wrappers and the
  confidence scorer `_calculate_confidence`;
* `engines/ai_lookup.py` — the AI fragment lookup (`lookup_fragment`)
  and the hallucination verifier's matching rule
  (`_result_matches_fragment`).

Python floats are modelled by exact rationals (`ℚ`); all the constants
involved (0.05 … 0.95) and their sums are small decimal numbers, and no
claim depends on binary rounding.  Python strings are Lean `String`s;
`str.lower` is modelled by ASCII lowercasing (every concrete string in
the claims is ASCII).  Network calls (bibliographic providers, AI
services) are modelled as explicit environment parameters, as the spec
treats them: external collaborators specified only at their interface.

Regular expressions from the source are embedded as abstract syntax
trees (`RE`) and run by a backtracking matcher (`mrun`) implementing
Python `re` semantics: leftmost match, alternation tries the left arm
first, greedy repetition prefers longer matches, lazy repetition
shorter ones, and a repetition body that matches the empty string stops
the repetition.
-/
import Mathlib

/-! ## String helpers (Python builtins used by the embedded code) -/

/-- Characters Python's `str.strip()` and the regex class `\s` treat as
whitespace, restricted to the ASCII range. -/
def pySpace (c : Char) : Bool :=
  c = ' ' || c = '\t' || c = '\n' || c = '\r' || c = '\x0b' || c = '\x0c'

/-- Python `str.lower()` (ASCII). -/
def pyLower (s : String) : String := String.mk (s.data.map Char.toLower)

/-- Python `str.strip()`: drop leading and trailing whitespace. -/
def pyStrip (s : String) : String :=
  String.mk ((s.data.dropWhile pySpace).reverse.dropWhile pySpace).reverse

/-- Python `str.rstrip(',')`. -/
def pyRstripComma (s : String) : String :=
  String.mk (s.data.reverse.dropWhile (· = ',')).reverse

/-- `needle` occurs at the very start of `hay`. -/
def listStartsWith : List Char → List Char → Bool
  | [], _ => true
  | _ :: _, [] => false
  | n :: ns, h :: hs => n = h && listStartsWith ns hs

/-- `needle` occurs contiguously somewhere inside `hay`. -/
def listIsInside (needle : List Char) : List Char → Bool
  | [] => needle.isEmpty
  | c :: hs => listStartsWith needle (c :: hs) || listIsInside needle hs

/-- Python `needle in hay` on strings (substring containment). -/
def strContains (hay needle : String) : Bool :=
  listIsInside needle.data hay.data

/-- Split a character list at every character satisfying `p`, keeping
empty pieces (the behaviour of Python `str.split(sep)`). -/
def listSplit (p : Char → Bool) : List Char → List (List Char)
  | [] => [[]]
  | c :: rest =>
    let r := listSplit p rest
    if p c then [] :: r
    else
      match r with
      | [] => [[c]]
      | piece :: pieces => (c :: piece) :: pieces

/-- Python `str.split()` with no argument: split on whitespace runs,
discarding empty pieces. -/
def pySplitWS (s : String) : List String :=
  ((listSplit pySpace s.data).map String.mk).filter (· ≠ "")

/-- Python `str.split(';')`: split on each single `';'`, keeping empty
pieces. -/
def pySplitSemicolon (s : String) : List String :=
  (listSplit (· = ';') s.data).map String.mk

/-- Python `' '.join(l)`. -/
def pyJoinSpace : List String → String
  | [] => ""
  | [x] => x
  | x :: xs => x ++ " " ++ pyJoinSpace xs

/-- Python `str.isdigit()` (ASCII digits). -/
def pyIsDigit (s : String) : Bool :=
  s ≠ "" && s.data.all Char.isDigit

/-- Python `int(s)`, as far as the embedded code needs it: the code only
ever converts 4-digit year strings, `String.toInt?` agrees there. -/
def pyToInt (s : String) : Option Int := s.toInt?

/-- A decimal constant `n / d` of the source, in a form the kernel can
evaluate (`mkRat` normalizes eagerly; the `/` notation on `ℚ` does
not reduce definitionally). -/
def dec (n : Int) (d : Nat) : ℚ := mkRat n d

lemma dec_eq_div (n : Int) (d : Nat) : dec n d = (n : ℚ) / d := by
  unfold dec
  rw [Rat.mkRat_eq_div]

/-- Python `min(a, b)` on two floats. -/
def pyMin (a b : ℚ) : ℚ := if a ≤ b then a else b

/-- Python `max(a, b)` on two floats. -/
def pyMax (a b : ℚ) : ℚ := if b ≤ a then a else b

@[simp] lemma pyMin_eq (a b : ℚ) : pyMin a b = min a b := by
  unfold pyMin
  rw [min_def]

@[simp] lemma pyMax_eq (a b : ℚ) : pyMax a b = max a b := by
  unfold pyMax
  rcases le_total a b with h | h
  · rw [max_eq_right h]
    split_ifs with h2
    · exact le_antisymm h h2
    · rfl
  · rw [max_eq_left h]
    rw [if_pos h]

/-! ## A small regex engine with Python `re` semantics

Only the constructs the source patterns use are supported: character
classes, sequencing, alternation, greedy and lazy repetition, capture
groups, the anchors `^`/`$` and the word boundary `\b`. -/

/-- Regex abstract syntax. -/
inductive RE where
  | eps
  | bos
  | eos
  | bound
  | cls (p : Char → Bool)
  | seq (a b : RE)
  | alt (a b : RE)
  | star (a : RE)
  | lazyStar (a : RE)
  | grp (n : Nat) (a : RE)

/-- Captured groups: `(group index, start, stop)` with the most recent
capture first. -/
abbrev Caps := List (Nat × Nat × Nat)

/-- Word characters for `\b` (Python `\w`, ASCII). -/
def reWordChar (c : Char) : Bool := c.isAlphanum || c = '_'

/-- Greedy repetition: prefer one more iteration; an iteration must
consume at least one character (Python stops a repetition whose body
matched empty). -/
def starRun (step : Nat → List Char → List (Caps × Nat × List Char)) :
    Nat → Nat → List Char → List (Caps × Nat × List Char)
  | 0, i, rest => [([], i, rest)]
  | fuel+1, i, rest =>
    (((step i rest).filter fun r => i < r.2.1).flatMap fun r =>
      (starRun step fuel r.2.1 r.2.2).map fun q => (q.1 ++ r.1, q.2))
    ++ [([], i, rest)]

/-- Lazy repetition: prefer fewer iterations. -/
def lazyStarRun (step : Nat → List Char → List (Caps × Nat × List Char)) :
    Nat → Nat → List Char → List (Caps × Nat × List Char)
  | 0, i, rest => [([], i, rest)]
  | fuel+1, i, rest =>
    ([], i, rest) ::
    (((step i rest).filter fun r => i < r.2.1).flatMap fun r =>
      (lazyStarRun step fuel r.2.1 r.2.2).map fun q => (q.1 ++ r.1, q.2))

/-- Backtracking matcher.  `ctx` is the whole subject (for `\b`),
`i` the current position, `rest` the remaining characters
(`rest = ctx.drop i`).  Results are listed in Python preference order;
the head of the list is the match Python would produce. -/
def mrun (ctx : List Char) (fuel : Nat) : RE → Nat → List Char →
    List (Caps × Nat × List Char)
  | .eps, i, rest => [([], i, rest)]
  | .bos, i, rest => if i = 0 then [([], i, rest)] else []
  | .eos, i, rest => match rest with
    | [] => [([], i, rest)]
    | _ :: _ => []
  | .bound, i, rest =>
    let prevW := if i = 0 then false else reWordChar (ctx.getD (i-1) ' ')
    let nextW := match rest with
      | c :: _ => reWordChar c
      | [] => false
    if prevW ≠ nextW then [([], i, rest)] else []
  | .cls p, i, rest => match rest with
    | c :: rs => if p c then [([], i+1, rs)] else []
    | [] => []
  | .seq a b, i, rest =>
    (mrun ctx fuel a i rest).flatMap fun r =>
      (mrun ctx fuel b r.2.1 r.2.2).map fun q => (q.1 ++ r.1, q.2)
  | .alt a b, i, rest => mrun ctx fuel a i rest ++ mrun ctx fuel b i rest
  | .grp n a, i, rest =>
    (mrun ctx fuel a i rest).map fun r => (r.1 ++ [(n, i, r.2.1)], r.2)
  | .star a, i, rest => starRun (fun j rs => mrun ctx fuel a j rs) fuel i rest
  | .lazyStar a, i, rest =>
    lazyStarRun (fun j rs => mrun ctx fuel a j rs) fuel i rest

/-- One regex match: span `[start, stop)` plus its captures. -/
structure RMatch where
  start : Nat
  stop : Nat
  caps : Caps
  deriving Repr

/-- Try the pattern anchored at position `i`; Python's preferred match. -/
def firstResult (ctx : List Char) (re : RE) (i : Nat) : Option (Caps × Nat) :=
  if i > ctx.length then none
  else
    match mrun ctx (ctx.length + 1) re i (ctx.drop i) with
    | [] => none
    | r :: _ => some (r.1, r.2.1)

/-- Scan for the leftmost position `≥ i` where the pattern matches
(`re.search` from a given offset). -/
def searchFromAux (ctx : List Char) (re : RE) : Nat → Nat → Option RMatch
  | 0, _ => none
  | fuel+1, i =>
    match firstResult ctx re i with
    | some r => some ⟨i, r.2, r.1⟩
    | none => if i > ctx.length then none else searchFromAux ctx re fuel (i+1)

/-- Python `re.search`. -/
def reSearch (re : RE) (s : String) : Option RMatch :=
  searchFromAux s.data re (s.data.length + 1) 0

/-- Python `re.match` (anchored at the start only). -/
def reMatch (re : RE) (s : String) : Option RMatch :=
  (firstResult s.data re 0).map fun r => ⟨0, r.2, r.1⟩

/-- Python `re.finditer`: successive non-overlapping leftmost matches. -/
def finditerAux (ctx : List Char) (re : RE) : Nat → Nat → List RMatch
  | 0, _ => []
  | fuel+1, i =>
    match searchFromAux ctx re (ctx.length + 1) i with
    | none => []
    | some m =>
      m :: finditerAux ctx re fuel (if m.start < m.stop then m.stop else m.start + 1)

/-- Python `re.finditer` over a string. -/
def reFinditer (re : RE) (s : String) : List RMatch :=
  finditerAux s.data re (s.data.length + 1) 0

/-- The text of capture group `n` (Python `m.group(n)`), `none` if the
group did not participate in the match. -/
def capStr (ctx : List Char) (caps : Caps) (n : Nat) : Option String :=
  (caps.find? (fun t => t.1 = n)).map fun t =>
    String.mk ((ctx.drop t.2.1).take (t.2.2 - t.2.1))

/-- The whole text of a match (Python `m.group()`). -/
def matchStr (ctx : List Char) (m : RMatch) : String :=
  String.mk ((ctx.drop m.start).take (m.stop - m.start))

/-- Python `re.sub(pattern, '', s)`: delete every matched span. -/
def reSubEmpty (re : RE) (s : String) : String :=
  let ctx := s.data
  let ms := reFinditer re s
  String.mk <| (List.range ctx.length).filterMap fun idx =>
    if ms.any (fun m => m.start ≤ idx ∧ idx < m.stop) then none
    else ctx.getD idx ' '

/-- Python `re.split(pattern, s)` (no capture groups in the pattern). -/
def reSplit (re : RE) (s : String) : List String :=
  let ctx := s.data
  let ms := reFinditer re s
  let rec go (cur : Nat) : List RMatch → List String
    | [] => [String.mk ((ctx.drop cur).take (ctx.length - cur))]
    | m :: rest => String.mk ((ctx.drop cur).take (m.start - cur)) :: go m.stop rest
  go 0 ms

/-- Python `re.findall` for a pattern without groups: the matched texts. -/
def reFindall (re : RE) (s : String) : List String :=
  (reFinditer re s).map (matchStr s.data)

/-! Combinator shorthands used to transcribe the source's pattern
strings.  Each embedded pattern below is a transliteration of one
regex literal from the source, with explicit group numbers assigned in
Python order (by position of the opening parenthesis). -/

/-- A literal character. -/
def chC (c : Char) : RE := RE.cls (fun x => x = c)

/-- A literal character under `re.IGNORECASE`. -/
def chCI (c : Char) : RE := RE.cls (fun x => x.toLower = c.toLower)

/-- Sequence a list of regexes. -/
def rSeq (l : List RE) : RE := l.foldr RE.seq RE.eps

/-- Alternation over a list, left arm preferred (Python `a|b|c`). -/
def rAlt : List RE → RE
  | [] => RE.cls (fun _ => false)
  | [x] => x
  | x :: xs => RE.alt x (rAlt xs)

/-- Python `r?` (greedy option). -/
def rOpt (a : RE) : RE := RE.alt a RE.eps

/-- Python `r+`. -/
def rPlus (a : RE) : RE := RE.seq a (RE.star a)

/-- A literal string. -/
def rStr (s : String) : RE := rSeq (s.data.map chC)

/-- A literal string under `re.IGNORECASE`. -/
def rStrCI (s : String) : RE := rSeq (s.data.map chCI)

/-- Python `r{n}`. -/
def rRep (n : Nat) (a : RE) : RE := rSeq (List.replicate n a)

/-- The class `\s`. -/
def clsSpace : RE := RE.cls pySpace

/-- The class `\d`. -/
def clsDigit : RE := RE.cls Char.isDigit

/-! ## Data model

The dataclass `CitationMetadata` lives in `models.py`, which is part of
the repository but not among the provided sources. -/

/-- Modelled from the spec: the spec's `CandidateRecord`
(`title, authors[], year, container (journal/publisher), volume, issue,
pages, identifiers{doi, pmid}, sourceProvider`), extended with the
fields the embedded code reads or writes on it (`place`, `raw_source`,
`confidence`).  Absent optional fields are empty strings, as in the
Python dataclass defaults; the declaration of `models.CitationMetadata`
itself is missing from the sources. -/
structure CitationMetadata where
  title : String := ""
  authors : List String := []
  year : String := ""
  journal : String := ""
  volume : String := ""
  issue : String := ""
  pages : String := ""
  publisher : String := ""
  place : String := ""
  doi : String := ""
  pmid : String := ""
  raw_source : String := ""
  source_engine : String := ""
  confidence : ℚ := 1/2
  deriving Repr, DecidableEq

/-- `SearchResult` from `engines/author_year_search.py`: a candidate
with its confidence score and match reason. -/
structure SearchResult where
  metadata : CitationMetadata
  confidence : ℚ
  match_reason : String
  deriving Repr, DecidableEq

/-- Python truthiness of an optional-string argument
(`if second_author:`). -/
def optTruthy : Option String → Bool
  | none => false
  | some s => s ≠ ""

/-! ## Confidence Scorer (`AuthorDateEngine._calculate_confidence`) -/

/-- `AuthorDateEngine._calculate_confidence`.  Each `let confidence :=`
step transliterates one `confidence +=` block of the source; the final
result is `min(1.0, confidence)`. -/
def calculateConfidence (metadata : CitationMetadata) (author year : String)
    (second_author : Option String) (third_author : Option String := none) : ℚ :=
  let confidence : ℚ := 0
  -- Year match (required); off-by-one years compare as integers,
  -- `int()` failures (ValueError) contribute nothing.
  let confidence := confidence +
    (if metadata.year = year then dec 3 10
     else if metadata.year ≠ "" then
       match pyToInt metadata.year, pyToInt year with
       | some my, some qy => if (my - qy).natAbs ≤ 1 then dec 2 10 else 0
       | _, _ => 0
     else 0)
  -- Author match: all three author bonuses are guarded by
  -- `if metadata.authors:` in the source.
  let authorsLower := metadata.authors.map pyLower
  let confidence := confidence +
    (if !metadata.authors.isEmpty &&
        authorsLower.any (fun a => strContains a (pyLower author))
     then dec 3 10 else 0)
  let confidence := confidence +
    (if !metadata.authors.isEmpty && optTruthy second_author &&
        authorsLower.any (fun a => strContains a (pyLower (second_author.getD "")))
     then dec 15 100 else 0)
  let confidence := confidence +
    (if !metadata.authors.isEmpty && optTruthy third_author &&
        authorsLower.any (fun a => strContains a (pyLower (third_author.getD "")))
     then dec 1 10 else 0)
  -- DOI presence (reliable identifier)
  let confidence := confidence + (if metadata.doi ≠ "" then dec 15 100 else 0)
  -- Complete metadata bonus
  let completeness : ℚ :=
    (if metadata.title ≠ "" then 1 else 0) +
    (if metadata.journal ≠ "" || metadata.publisher ≠ "" then 1 else 0) +
    (if metadata.volume ≠ "" || metadata.pages ≠ "" then 1 else 0)
  let confidence := confidence + completeness * dec 5 100
  pyMin 1 confidence

/-- The Google-Scholar scoring path
(`AuthorDateEngine._search_google_scholar`): the scorer followed by the
no-DOI penalty `confidence = max(0.0, confidence - 0.05)`.  This is the
code path carrying the spec table's "No persistent identifier −0.05"
row. -/
def googleScholarScore (metadata : CitationMetadata) (author year : String)
    (second_author third_author : Option String) : ℚ :=
  let confidence := calculateConfidence metadata author year second_author third_author
  if metadata.doi = "" then pyMax 0 (confidence - dec 5 100) else confidence

/-- The Crossref scoring path (`AuthorDateEngine._search_crossref`):
the scorer followed by `confidence = min(1.0, confidence + 0.1)` when a
DOI is present. -/
def crossrefScore (metadata : CitationMetadata) (author year : String)
    (second_author third_author : Option String) : ℚ :=
  let confidence := calculateConfidence metadata author year second_author third_author
  if metadata.doi ≠ "" then pyMin 1 (confidence + dec 1 10) else confidence

/-! Claim-side restatement of the scoring table (spec §4.3 / claim C3),
written from the claim's words, to be compared with the source
embedding above. -/

/-- Claim C3's "a year within 1 when there is no exact match". -/
def specYearWithinOne (candidateYear queryYear : String) : Bool :=
  candidateYear ≠ "" &&
    match pyToInt candidateYear, pyToInt queryYear with
    | some my, some qy => (my - qy).natAbs ≤ 1
    | _, _ => false

/-- Claim C3's "the author surname appears as a substring of any
candidate author". -/
def specAuthorMatch (c : CitationMetadata) (name : String) : Bool :=
  (c.authors.map pyLower).any (fun a => strContains a (pyLower name))

/-- Claim C3's "the candidate carries a persistent identifier".  The
spec's persistent identifiers are the DOI and the PMID
(`identifiers{doi, pmid}` in the record model; "persistent identifier
(DOI/PMID)" in the scoring section). -/
def specHasIdentifier (c : CitationMetadata) : Bool :=
  c.doi ≠ "" || c.pmid ≠ ""

/-- Amended identifier test: the scorer consults only `metadata.doi`;
a PMID earns nothing and does not avert the no-identifier penalty. -/
def amendedHasIdentifier (c : CitationMetadata) : Bool := c.doi ≠ ""

/-- Claim C3's metadata-completeness count: one point each for
title / container (journal or publisher) / locator (volume or pages). -/
def specCompleteness (c : CitationMetadata) : ℚ :=
  (if c.title ≠ "" then 1 else 0) +
  (if c.journal ≠ "" || c.publisher ≠ "" then 1 else 0) +
  (if c.volume ≠ "" || c.pages ≠ "" then 1 else 0)

/-- Clamp to `[0,1]`. -/
def clamp01 (x : ℚ) : ℚ := max 0 (min 1 x)

/-- The score exactly as claim C3 states it: the sum of the listed
contributions, clamped to `[0,1]`. -/
def specScoreC3 (c : CitationMetadata) (author year : String)
    (second_author third_author : Option String) : ℚ :=
  clamp01 (
    (if c.year = year then 3/10
     else if specYearWithinOne c.year year then 2/10 else 0) +
    (if specAuthorMatch c author then 3/10 else 0) +
    (if optTruthy second_author && specAuthorMatch c (second_author.getD "")
     then 15/100 else 0) +
    (if optTruthy third_author && specAuthorMatch c (third_author.getD "")
     then 1/10 else 0) +
    (if specHasIdentifier c then 15/100 else 0) +
    specCompleteness c * (5/100) +
    (if specHasIdentifier c then 0 else -(5/100)))

/-- The score with the claim's table amended at its one divergence:
"persistent identifier" read as the DOI alone, both in the `+0.15` row
and in the `−0.05` penalty row. -/
def amendedScoreC3 (c : CitationMetadata) (author year : String)
    (second_author third_author : Option String) : ℚ :=
  clamp01 (
    (if c.year = year then 3/10
     else if specYearWithinOne c.year year then 2/10 else 0) +
    (if specAuthorMatch c author then 3/10 else 0) +
    (if optTruthy second_author && specAuthorMatch c (second_author.getD "")
     then 15/100 else 0) +
    (if optTruthy third_author && specAuthorMatch c (third_author.getD "")
     then 1/10 else 0) +
    (if amendedHasIdentifier c then 15/100 else 0) +
    specCompleteness c * (5/100) +
    (if amendedHasIdentifier c then 0 else -(5/100)))

/-! Shared decomposition of the score into its contribution pieces,
used to relate `calculateConfidence`/`googleScholarScore` to the
claim-side `specScoreC3`. -/

/-- Year contribution of the score. -/
def scoreYearPiece (candidateYear queryYear : String) : ℚ :=
  if candidateYear = queryYear then 3/10
  else if specYearWithinOne candidateYear queryYear then 2/10 else 0

/-- Primary-author contribution of the score. -/
def scorePrimaryPiece (c : CitationMetadata) (author : String) : ℚ :=
  if specAuthorMatch c author then 3/10 else 0

/-- Second-author contribution of the score. -/
def scoreSecondPiece (c : CitationMetadata) (sa : Option String) : ℚ :=
  if optTruthy sa && specAuthorMatch c (sa.getD "") then 15/100 else 0

/-- Third-author contribution of the score. -/
def scoreThirdPiece (c : CitationMetadata) (ta : Option String) : ℚ :=
  if optTruthy ta && specAuthorMatch c (ta.getD "") then 1/10 else 0

/-- Identifier contribution of the score. -/
def scoreIdPiece (c : CitationMetadata) : ℚ :=
  if c.doi ≠ "" then 15/100 else 0

/-- The unclamped sum of the score's non-negative contributions. -/
def scoreSum (c : CitationMetadata) (author year : String)
    (sa ta : Option String) : ℚ :=
  scoreYearPiece c.year year + scorePrimaryPiece c author +
    scoreSecondPiece c sa + scoreThirdPiece c ta + scoreIdPiece c +
    specCompleteness c * (5/100)

lemma yearPiece_eq (cy y : String) :
    (if cy = y then dec 3 10
     else if cy ≠ "" then
       match pyToInt cy, pyToInt y with
       | some my, some qy => if (my - qy).natAbs ≤ 1 then dec 2 10 else 0
       | _, _ => 0
     else 0)
    = scoreYearPiece cy y := by
  unfold scoreYearPiece specYearWithinOne
  by_cases h : cy = y
  · simp [h, dec_eq_div]
  · by_cases h2 : cy = ""
    · simp [h, h2, dec_eq_div]
    · rcases hcy : pyToInt cy with _ | my <;> rcases hy : pyToInt y with _ | qy <;>
        simp [h, h2, hcy, hy, dec_eq_div]

lemma authorGuard_eq (l : List String) (p : String → Bool) :
    (!l.isEmpty && (l.map pyLower).any p) = (l.map pyLower).any p := by
  cases l <;> simp

lemma primaryPiece_eq (c : CitationMetadata) (author : String) :
    (if (!c.authors.isEmpty && (c.authors.map pyLower).any
          fun a => strContains a (pyLower author)) = true
     then dec 3 10 else 0) = scorePrimaryPiece c author := by
  unfold scorePrimaryPiece specAuthorMatch
  cases hc : c.authors <;> simp [hc, dec_eq_div]

lemma secondPiece_eq (c : CitationMetadata) (sa : Option String) :
    (if (!c.authors.isEmpty && optTruthy sa && (c.authors.map pyLower).any
          fun a => strContains a (pyLower (sa.getD ""))) = true
     then dec 15 100 else 0) = scoreSecondPiece c sa := by
  unfold scoreSecondPiece specAuthorMatch
  cases hc : c.authors <;> simp [hc, dec_eq_div]

lemma thirdPiece_eq (c : CitationMetadata) (ta : Option String) :
    (if (!c.authors.isEmpty && optTruthy ta && (c.authors.map pyLower).any
          fun a => strContains a (pyLower (ta.getD ""))) = true
     then dec 1 10 else 0) = scoreThirdPiece c ta := by
  unfold scoreThirdPiece specAuthorMatch
  cases hc : c.authors <;> simp [hc, dec_eq_div]

lemma calculateConfidence_eq (c : CitationMetadata) (author year : String)
    (sa ta : Option String) :
    calculateConfidence c author year sa ta =
      min 1 (scoreSum c author year sa ta) := by
  unfold calculateConfidence scoreSum
  dsimp only
  rw [yearPiece_eq, primaryPiece_eq, secondPiece_eq, thirdPiece_eq, pyMin_eq]
  unfold scoreIdPiece specCompleteness
  congr 1
  simp only [dec_eq_div]
  push_cast
  ring

lemma scoreYearPiece_bounds (cy y : String) :
    0 ≤ scoreYearPiece cy y ∧ scoreYearPiece cy y ≤ 3/10 := by
  unfold scoreYearPiece; split_ifs <;> norm_num

lemma scorePrimaryPiece_bounds (c : CitationMetadata) (a : String) :
    0 ≤ scorePrimaryPiece c a ∧ scorePrimaryPiece c a ≤ 3/10 := by
  unfold scorePrimaryPiece; split_ifs <;> norm_num

lemma scoreSecondPiece_bounds (c : CitationMetadata) (sa : Option String) :
    0 ≤ scoreSecondPiece c sa ∧ scoreSecondPiece c sa ≤ 15/100 := by
  unfold scoreSecondPiece; split_ifs <;> norm_num

lemma scoreThirdPiece_bounds (c : CitationMetadata) (ta : Option String) :
    0 ≤ scoreThirdPiece c ta ∧ scoreThirdPiece c ta ≤ 1/10 := by
  unfold scoreThirdPiece; split_ifs <;> norm_num

lemma specCompleteness_bounds (c : CitationMetadata) :
    0 ≤ specCompleteness c ∧ specCompleteness c ≤ 3 := by
  unfold specCompleteness; split_ifs <;> norm_num

lemma scoreSum_nonneg (c : CitationMetadata) (author year : String)
    (sa ta : Option String) : 0 ≤ scoreSum c author year sa ta := by
  unfold scoreSum scoreIdPiece
  have h1 := scoreYearPiece_bounds c.year year
  have h2 := scorePrimaryPiece_bounds c author
  have h3 := scoreSecondPiece_bounds c sa
  have h4 := scoreThirdPiece_bounds c ta
  have h5 := specCompleteness_bounds c
  split_ifs <;> nlinarith [h1.1, h2.1, h3.1, h4.1, h5.1]

lemma scoreSum_le_one_of_noDoi (c : CitationMetadata) (author year : String)
    (sa ta : Option String) (h : c.doi = "") :
    scoreSum c author year sa ta ≤ 1 := by
  unfold scoreSum scoreIdPiece
  have h1 := scoreYearPiece_bounds c.year year
  have h2 := scorePrimaryPiece_bounds c author
  have h3 := scoreSecondPiece_bounds c sa
  have h4 := scoreThirdPiece_bounds c ta
  have h5 := specCompleteness_bounds c
  simp only [h, ne_eq, not_true_eq_false, if_false]
  nlinarith [h1.2, h2.2, h3.2, h4.2, h5.2]

lemma calculateConfidence_bounds (c : CitationMetadata) (author year : String)
    (sa ta : Option String) :
    0 ≤ calculateConfidence c author year sa ta ∧
      calculateConfidence c author year sa ta ≤ 1 := by
  rw [calculateConfidence_eq]
  constructor
  · exact le_min (by norm_num) (scoreSum_nonneg c author year sa ta) |>.trans
      (min_le_min (le_refl 1) (le_refl _)) |>.trans (le_refl _)
  · exact min_le_left _ _

lemma amendedScoreC3_eq_clamp (c : CitationMetadata) (author year : String)
    (sa ta : Option String) :
    amendedScoreC3 c author year sa ta =
      clamp01 (scoreSum c author year sa ta +
        (if c.doi = "" then -(5/100) else 0)) := by
  unfold amendedScoreC3 scoreSum scoreYearPiece scorePrimaryPiece scoreSecondPiece
    scoreThirdPiece scoreIdPiece amendedHasIdentifier
  by_cases hdoi : c.doi = "" <;> simp [hdoi, clamp01]

lemma googleScholarScore_eq_amended (c : CitationMetadata) (author year : String)
    (sa ta : Option String) :
    googleScholarScore c author year sa ta = amendedScoreC3 c author year sa ta := by
  rw [amendedScoreC3_eq_clamp]
  unfold googleScholarScore clamp01
  rw [calculateConfidence_eq]
  have hnn := scoreSum_nonneg c author year sa ta
  by_cases hdoi : c.doi = ""
  · have hle := scoreSum_le_one_of_noDoi c author year sa ta hdoi
    simp only [hdoi, if_true, pyMax_eq, pyMin_eq, dec_eq_div]
    rw [min_eq_right hle]
    rw [min_eq_right (by linarith)]
    congr 1
    push_cast
    ring
  · simp only [hdoi, if_false, add_zero]
    rw [max_eq_right (le_min (by norm_num) hnn)]

lemma googleScholarScore_bounds (c : CitationMetadata) (author year : String)
    (sa ta : Option String) :
    0 ≤ googleScholarScore c author year sa ta ∧
      googleScholarScore c author year sa ta ≤ 1 := by
  unfold googleScholarScore
  have h := calculateConfidence_bounds c author year sa ta
  simp only [pyMax_eq, dec_eq_div]
  split_ifs
  · constructor
    · exact le_max_left 0 _
    · refine max_le (by norm_num) (by push_cast; linarith [h.2])
  · exact h

lemma crossrefScore_bounds (c : CitationMetadata) (author year : String)
    (sa ta : Option String) :
    0 ≤ crossrefScore c author year sa ta ∧
      crossrefScore c author year sa ta ≤ 1 := by
  unfold crossrefScore
  have h := calculateConfidence_bounds c author year sa ta
  simp only [pyMin_eq, dec_eq_div]
  split_ifs
  · exact ⟨le_min (by norm_num) (by push_cast; linarith [h.1]), min_le_left _ _⟩
  · exact h

/-! ## Tiered resolver (`AuthorDateEngine.search`)

Each free provider (Crossref, OpenAlex, Google Scholar) and each AI
guess service (GPT-4o, Claude) is an external network collaborator; its
behaviour on the one query `search` issues is an explicit environment
parameter.  `Tier1Outcome.hangs` models a provider call that has not
completed when the collective `as_completed` deadline elapses;
`arrival` is the order in which completed futures are yielded. -/

/-- The three free providers fanned out to in Tier 1. -/
inductive Provider where
  | crossref
  | openalex
  | googleScholar
  deriving Repr, DecidableEq

/-- Outcome of one provider's engine call for the query at hand. -/
inductive Tier1Outcome where
  /-- `engine.search(query)` returned this record. -/
  | found (m : CitationMetadata)
  /-- `engine.search(query)` returned `None`. -/
  | notFound
  /-- the call raised; caught by the per-future `try`/`except`. -/
  | raises
  /-- the call had not completed when the collective deadline elapsed. -/
  | hangs
  deriving Repr, DecidableEq

/-- A structured guess parsed out of an AI service's JSON response.
Fields carry the values of `guess.get('field', default)`; the year is
optional because its `get` default is the query year. -/
structure AIGuess where
  confidence : ℚ := 0
  title : String := ""
  authors : List String := []
  year : Option String := none
  journal : String := ""
  volume : String := ""
  issue : String := ""
  pages : String := ""
  publisher : String := ""
  doi : String := ""
  pmid : String := ""
  place : String := ""
  search_query : String := ""
  deriving Repr, DecidableEq

/-- Provider-side behaviour for one `search` call.  An AI entry of
`none` covers every failure path of `_search_gpt4o`/`_search_claude`
before a guess is parsed: missing API key, HTTP error, unparsable
JSON, exception. -/
structure ResolverEnv where
  crossref : Tier1Outcome := .notFound
  openalex : Tier1Outcome := .notFound
  googleScholar : Tier1Outcome := .notFound
  arrival : List Provider := [.crossref, .openalex, .googleScholar]
  gpt4o : Option AIGuess := none
  claude : Option AIGuess := none
  deriving Repr, DecidableEq

/-- Which calls the resolver made (mock-provider call counts, in the
spec's words).  `verifierCalls` counts invocations of the hallucination
verifier (`_verify_against_databases`). -/
structure SearchTrace where
  crossref : Bool := false
  openalex : Bool := false
  googleScholar : Bool := false
  gpt4o : Bool := false
  claude : Bool := false
  verifierCalls : Nat := 0
  deriving Repr, DecidableEq

/-- The one uncaught exception the embedded code can produce:
`concurrent.futures.TimeoutError` from `as_completed`. -/
inductive PyError where
  | timeout
  deriving Repr, DecidableEq

/-- `as_completed(futures, timeout=timeout)` raises `TimeoutError` when
some submitted future is still unfinished at the deadline. -/
def anyHang (env : ResolverEnv) : Bool :=
  env.crossref = .hangs || env.openalex = .hangs || env.googleScholar = .hangs

/-- `AuthorDateEngine._search_crossref` applied to the engine's
response. -/
def crossrefResults (outcome : Tier1Outcome) (author year : String)
    (sa ta : Option String) : List SearchResult :=
  match outcome with
  | .found m =>
    if m.title ≠ "" then
      if m.year ≠ "" && m.year = year then
        [⟨m, crossrefScore m author year sa ta, "Crossref author+year match"⟩]
      else []
    else []
  | _ => []

/-- `AuthorDateEngine._search_openalex` applied to the engine's
response. -/
def openalexResults (outcome : Tier1Outcome) (author year : String)
    (sa ta : Option String) : List SearchResult :=
  match outcome with
  | .found m =>
    if m.title ≠ "" then
      if m.year ≠ "" && m.year = year then
        [⟨m, calculateConfidence m author year sa ta, "OpenAlex author+year match"⟩]
      else []
    else []
  | _ => []

/-- `AuthorDateEngine._search_google_scholar` applied to the engine's
response (no year filter in this path). -/
def googleScholarResults (outcome : Tier1Outcome) (author year : String)
    (sa ta : Option String) : List SearchResult :=
  match outcome with
  | .found m =>
    if m.title ≠ "" then
      [⟨m, googleScholarScore m author year sa ta, "Google Scholar author+year match"⟩]
    else []
  | _ => []

/-- One provider's contribution to the Tier-1 result list. -/
def providerResults (env : ResolverEnv) (p : Provider) (author year : String)
    (sa ta : Option String) : List SearchResult :=
  match p with
  | .crossref => crossrefResults env.crossref author year sa ta
  | .openalex => openalexResults env.openalex author year sa ta
  | .googleScholar => googleScholarResults env.googleScholar author year sa ta

/-- The results collected by the Tier-1 fan-out loop, in arrival order
(`for future in as_completed(...): results.extend(result)`). -/
def tier1Collected (env : ResolverEnv) (author year : String)
    (sa ta : Option String) : List SearchResult :=
  env.arrival.flatMap (fun p => providerResults env p author year sa ta)

/-- Stable insertion step of the descending sort: `x` goes after every
element whose confidence is `≥ x.confidence`. -/
def insertDesc (x : SearchResult) : List SearchResult → List SearchResult
  | [] => [x]
  | y :: ys =>
    if y.confidence < x.confidence then x :: y :: ys else y :: insertDesc x ys

/-- Python's `results.sort(reverse=True)` under
`SearchResult.__lt__ = confidence <`: a stable sort by descending
confidence.  Stable descending sorts of a list agree, so this insertion
sort computes exactly what CPython's stable `list.sort` does. -/
def pySortDesc : List SearchResult → List SearchResult
  | [] => []
  | x :: xs => insertDesc x (pySortDesc xs)

/-- Processing of a parsed AI guess, common to `_search_gpt4o` and
`_search_claude` (their decision logic is line-for-line identical; only
the engine label and match reason differ). -/
def aiResultFromGuess (g : AIGuess) (queryAuthor queryYear : String)
    (engine reason : String) : List SearchResult :=
  if g.confidence < dec 1 2 then []
  else
    let metadata : CitationMetadata := {
      title := g.title
      authors := g.authors
      year := g.year.getD queryYear
      journal := g.journal
      volume := g.volume
      issue := g.issue
      pages := g.pages
      publisher := g.publisher
      doi := g.doi
      source_engine := engine }
    let authorsMatch := !metadata.authors.isEmpty &&
      metadata.authors.any (fun a => strContains (pyLower a) (pyLower queryAuthor))
    if metadata.title ≠ "" && authorsMatch then
      [⟨metadata, pyMin (dec 95 100) (g.confidence + dec 1 10), reason⟩]
    else []

/-- `AuthorDateEngine._search_gpt4o` applied to the service response. -/
def searchGpt4o (response : Option AIGuess) (author year : String) :
    List SearchResult :=
  match response with
  | none => []
  | some g => aiResultFromGuess g author year "GPT-4o" "GPT-4o contextual match"

/-- `AuthorDateEngine._search_claude` applied to the service response
(`guess_citation`'s failure dict `{"confidence": 0.0, ...}` is a guess
with confidence 0). -/
def searchClaude (response : Option AIGuess) (author year : String) :
    List SearchResult :=
  match response with
  | none => []
  | some g => aiResultFromGuess g author year "Claude AI" "Claude AI contextual match"

/-- `best.metadata.raw_source = f"({author}, {year})"`. -/
def setRawSource (m : CitationMetadata) (author year : String) : CitationMetadata :=
  { m with raw_source := "(" ++ author ++ ", " ++ year ++ ")" }

/-- The good-tier-1 test of `search`:
`if results: results.sort(reverse=True); best = results[0];
if best.confidence >= 0.5: …`. -/
def tier1Good (results : List SearchResult) : Option SearchResult :=
  match pySortDesc results with
  | best :: _ => if dec 1 2 ≤ best.confidence then some best else none
  | [] => none

/-- The AI fallback part of `AuthorDateEngine.search` (Tier 2 then
Tier 3), given the sorted low-confidence Tier-1 results.  Returns the
returned metadata (if any) and whether Claude (Tier 3) was invoked. -/
def searchAITiers (gpt claude : Option AIGuess) (results0 : List SearchResult)
    (author year : String) : Option CitationMetadata × Bool :=
  -- TIER 2 FALLBACK: GPT-4o
  let gptResults := pySortDesc (searchGpt4o gpt author year)
  let results1 :=
    match gptResults with
    | g :: _ => if dec 1 2 ≤ g.confidence then results0 ++ gptResults else results0
    | [] => results0
  -- TIER 3 FALLBACK: Claude, only if GPT-4o produced nothing good
  let claudeNeeded :=
    match gptResults with
    | [] => true
    | g :: _ => g.confidence < dec 1 2
  let results2 :=
    if claudeNeeded then results1 ++ searchClaude claude author year else results1
  match pySortDesc results2 with
  | [] => (none, claudeNeeded)
  | best :: _ => (some (setRawSource best.metadata author year), claudeNeeded)

/-- The trace of a `search` call that performed the Tier-1 fan-out. -/
def tier1Trace : SearchTrace :=
  { crossref := true, openalex := true, googleScholar := true }

/-- `AuthorDateEngine.search`.  Returns the Python function's outcome —
a value, or an uncaught exception — together with the trace of which
external services were invoked. -/
def search (env : ResolverEnv) (author year : String)
    (second_author : Option String := none) (third_author : Option String := none) :
    Except PyError (Option CitationMetadata) × SearchTrace :=
  if year = "n.d." then (.ok none, {})
  else
    -- Tier 1: parallel fan-out to the three free providers.
    if anyHang env then (.error .timeout, tier1Trace)
    else
      let results := tier1Collected env author year second_author third_author
      match tier1Good results with
      | some best => (.ok (some (setRawSource best.metadata author year)), tier1Trace)
      | none =>
        let ai := searchAITiers env.gpt4o env.claude (pySortDesc results) author year
        (.ok ai.1, { tier1Trace with gpt4o := true, claude := ai.2 })

/-- `AuthorDateEngine.search_multiple`: per-citation `try`/`except`
around `search`, so an exception becomes a `None` entry in the result
map. -/
def searchMultiple (envOf : String → String → ResolverEnv)
    (citations : List (String × String × Option String × Option String)) :
    List ((String × String) × Option CitationMetadata) :=
  citations.map fun q =>
    let key := (pyLower q.1, q.2.1)
    match (search (envOf q.1 q.2.1) q.1 q.2.1 q.2.2.1 q.2.2.2).1 with
    | .ok m => (key, m)
    | .error _ => (key, none)

/-! Facts about the stable descending sort. -/

lemma mem_insertDesc {a x : SearchResult} {l : List SearchResult} :
    a ∈ insertDesc x l ↔ a = x ∨ a ∈ l := by
  induction l with
  | nil => simp [insertDesc]
  | cons y ys ih =>
    unfold insertDesc
    split_ifs with h
    · simp
    · simp [ih]
      tauto

lemma mem_pySortDesc {a : SearchResult} {l : List SearchResult} :
    a ∈ pySortDesc l ↔ a ∈ l := by
  induction l with
  | nil => simp [pySortDesc]
  | cons x xs ih => simp [pySortDesc, mem_insertDesc, ih]

lemma pySortDesc_eq_nil {l : List SearchResult} :
    pySortDesc l = [] ↔ l = [] := by
  cases l with
  | nil => simp [pySortDesc]
  | cons x xs =>
    simp only [pySortDesc]
    constructor
    · intro h
      have : x ∈ insertDesc x (pySortDesc xs) := mem_insertDesc.2 (Or.inl rfl)
      rw [h] at this
      exact absurd this (List.not_mem_nil x)
    · intro h
      exact absurd h (List.cons_ne_nil x xs)

lemma pairwise_insertDesc {x : SearchResult} {l : List SearchResult}
    (h : l.Pairwise (fun a b => b.confidence ≤ a.confidence)) :
    (insertDesc x l).Pairwise (fun a b => b.confidence ≤ a.confidence) := by
  induction l with
  | nil => simp [insertDesc]
  | cons y ys ih =>
    rw [List.pairwise_cons] at h
    unfold insertDesc
    split_ifs with hlt
    · refine List.Pairwise.cons ?_ (List.Pairwise.cons h.1 h.2)
      intro b hb
      rcases List.mem_cons.1 hb with rfl | hb2
      · exact le_of_lt hlt
      · exact (h.1 b hb2).trans (le_of_lt hlt)
    · refine List.Pairwise.cons ?_ (ih h.2)
      intro b hb
      rcases mem_insertDesc.1 hb with rfl | hb2
      · exact le_of_not_lt hlt
      · exact h.1 b hb2

lemma pairwise_pySortDesc (l : List SearchResult) :
    (pySortDesc l).Pairwise (fun a b => b.confidence ≤ a.confidence) := by
  induction l with
  | nil => simp [pySortDesc]
  | cons x xs ih => exact pairwise_insertDesc ih

/-- The head of the sorted list dominates every element of the input:
`results.sort(reverse=True); best = results[0]` picks a maximal
confidence. -/
lemma pySortDesc_head_max {l : List SearchResult} {b : SearchResult}
    {t : List SearchResult} (h : pySortDesc l = b :: t) :
    ∀ a ∈ l, a.confidence ≤ b.confidence := by
  intro a ha
  have hmem : a ∈ pySortDesc l := mem_pySortDesc.2 ha
  rw [h] at hmem
  rcases List.mem_cons.1 hmem with rfl | hmem2
  · exact le_refl _
  · have hp := pairwise_pySortDesc l
    rw [h, List.pairwise_cons] at hp
    exact hp.1 a hmem2

/-! ## AI fragment lookup and hallucination verifier
(`engines/ai_lookup.py`) -/

/-- The stop-word set of `_result_matches_fragment`. -/
def stopWords : List String :=
  ["the", "a", "an", "of", "and", "in", "on", "at", "to", "for", "by", "with"]

/-- The year pattern `\b(19|20)\d{2}\b` of `_result_matches_fragment`. -/
def reFragmentYear : RE :=
  rSeq [RE.bound, RE.grp 1 (RE.alt (rStr "19") (rStr "20")),
    rRep 2 clsDigit, RE.bound]

/-- `_result_matches_fragment`: the hallucination verifier's matching
rule, applied to a database result and the original fragment. -/
def resultMatchesFragment (result : CitationMetadata) (fragment : String) : Bool :=
  if result.title = "" then false
  else
    let fragment_lower := pyLower fragment
    let title_lower := pyLower result.title
    -- Extract meaningful words from fragment
    let fragment_words := (pySplitWS fragment_lower).filter
      (fun w => w.length ≥ 3 && !stopWords.contains w && !pyIsDigit w)
    if fragment_words.isEmpty then true  -- Nothing to match
    else
      -- Build searchable text
      let searchable := title_lower ++
        (if !result.authors.isEmpty
         then " " ++ pyLower (pyJoinSpace result.authors) else "")
      -- Count matches
      let matchCount := fragment_words.countP (fun w => strContains searchable w)
      -- Require at least 2 matches (or all if < 2 words)
      let min_required := min 2 fragment_words.length
      let word_match := matchCount ≥ min_required
      -- Check year if present in fragment
      let year_match :=
        match reSearch reFragmentYear fragment with
        | some m =>
          if result.year ≠ "" then matchStr fragment.data m = result.year else true
        | none => true
      word_match && year_match

/-- `_guess_to_metadata`: convert an AI guess to a metadata record.
(The `citation_type` enum field is not modelled; no claim observes
it.) -/
def guessToMetadata (guess : AIGuess) (raw_source : String) : CitationMetadata :=
  { raw_source := raw_source
    source_engine := "AI Lookup"
    title := guess.title
    authors := guess.authors
    year := guess.year.getD ""
    journal := guess.journal
    volume := guess.volume
    issue := guess.issue
    pages := guess.pages
    doi := guess.doi
    pmid := guess.pmid
    publisher := guess.publisher
    place := guess.place
    confidence := guess.confidence }

/-- `lookup_fragment`.  The AI response (`_call_ai` plus
`_parse_json_response`; `none` covers no provider chain, call failure
and unparsable JSON) and the outcome of `_verify_against_databases`
(a chain of network lookups ending in `_result_matches_fragment`
checks) are environment parameters.  The second component counts
invocations of the database verifier. -/
def lookupFragment (aiResponse : Option AIGuess)
    (dbVerified : Option CitationMetadata) (fragment : String)
    (verify : Bool := true) : Option CitationMetadata × Nat :=
  match aiResponse with
  | none => (none, 0)
  | some guess =>
    if guess.confidence < dec 3 10 then (none, 0)  -- Confidence too low, rejecting
    else if !verify then (some (guessToMetadata guess fragment), 0)
    else
      match dbVerified with
      | some verified => (some verified, 1)
      | none =>
        -- High-confidence guesses can pass without verification
        if dec 9 10 ≤ guess.confidence && guess.title ≠ "" then
          (some { guessToMetadata guess fragment with
                    source_engine := "AI Lookup (unverified)"
                    confidence := guess.confidence * dec 8 10 }, 1)
        else (none, 1)

/-! Claim-side restatements of the verifier's matching rule. -/

/-- Claim C5's tokenization: "tokenize the fragment, discard stop-words
and bare numerals". -/
def specC5Tokens (fragment : String) : List String :=
  (pySplitWS (pyLower fragment)).filter
    (fun w => !stopWords.contains w && !pyIsDigit w)

/-- Claim C5's "the union of the candidate's title tokens and author
tokens". -/
def specC5TokenUnion (c : CitationMetadata) : List String :=
  pySplitWS (pyLower c.title) ++ c.authors.flatMap (fun a => pySplitWS (pyLower a))

/-- Claim C5's "the fragment contains a 4-digit year". -/
def specC5FragmentYear (fragment : String) : Option String :=
  (pySplitWS fragment).find? (fun w => w.length = 4 && w.data.all Char.isDigit)

/-- The matching rule exactly as claim C5 states it: at least
`min(2, tokenCount)` of the remaining tokens appear in the union of the
candidate's title and author tokens, and a 4-digit year in the fragment
must equal the candidate's year exactly. -/
def specC5Rule (c : CitationMetadata) (fragment : String) : Bool :=
  let tokens := specC5Tokens fragment
  let wordOK :=
    ((tokens.filter (fun w => (specC5TokenUnion c).contains w)).length ≥
      min 2 tokens.length)
  let yearOK :=
    match specC5FragmentYear fragment with
    | some y => c.year = y
    | none => true
  wordOK && yearOK

/-- The matching rule as amended by the counterexample: length-`< 3`
tokens are also discarded; a candidate with an empty title is rejected;
if no meaningful token remains the candidate is accepted outright (no
year check); token matching is substring containment in the
concatenation of title and authors; and the year check applies only to
a year `1900–2099` found in the fragment, and only when the candidate's
year is nonempty. -/
def amendedC5Rule (c : CitationMetadata) (fragment : String) : Bool :=
  if c.title = "" then false
  else
    let tokens := (pySplitWS (pyLower fragment)).filter
      (fun w => w.length ≥ 3 && !stopWords.contains w && !pyIsDigit w)
    if tokens.isEmpty then true
    else
      let hay := pyLower c.title ++
        (if !c.authors.isEmpty
         then " " ++ pyLower (pyJoinSpace c.authors) else "")
      let wordOK := (tokens.filter (fun w => strContains hay w)).length ≥
        min 2 tokens.length
      let yearOK :=
        match reSearch reFragmentYear fragment with
        | some m => c.year = "" || matchStr fragment.data m = c.year
        | none => true
      wordOK && yearOK

lemma resultMatchesFragment_eq_amended (c : CitationMetadata) (fragment : String) :
    resultMatchesFragment c fragment = amendedC5Rule c fragment := by
  unfold resultMatchesFragment amendedC5Rule
  by_cases ht : c.title = ""
  · simp [ht]
  · simp only [ht, if_false]
    rw [List.countP_eq_length_filter]
    rcases reSearch reFragmentYear fragment with _ | m
    · rfl
    · by_cases hy : c.year = "" <;> simp [hy]

/-! Facts about the AI tiers and the tier-1 promotion test. -/

lemma aiResultFromGuess_conf_bounds {g : AIGuess} {author year engine reason : String}
    {r : SearchResult} (h : r ∈ aiResultFromGuess g author year engine reason) :
    1/2 ≤ r.confidence ∧ r.confidence ≤ 1 := by
  unfold aiResultFromGuess at h
  have hd12 : dec 1 2 = (1:ℚ)/2 := by norm_num [dec_eq_div]
  have hd110 : dec 1 10 = (1:ℚ)/10 := by norm_num [dec_eq_div]
  rcases lt_or_le g.confidence (1/2) with hc | hc
  · rw [if_pos (by rw [hd12]; exact hc)] at h
    exact absurd h (List.not_mem_nil r)
  · rw [if_neg (by rw [hd12]; exact not_lt.2 hc)] at h
    dsimp only at h
    split_ifs at h with h2
    · rcases List.mem_singleton.1 h with rfl
      constructor
      · show (1:ℚ)/2 ≤ pyMin (dec 95 100) (g.confidence + dec 1 10)
        rw [pyMin_eq, hd110]
        exact le_min (by norm_num [dec_eq_div]) (by linarith)
      · show pyMin (dec 95 100) (g.confidence + dec 1 10) ≤ 1
        rw [pyMin_eq]
        exact (min_le_left _ _).trans (by norm_num [dec_eq_div])
    · exact absurd h (List.not_mem_nil r)

lemma searchGpt4o_conf_bounds {resp : Option AIGuess} {author year : String}
    {r : SearchResult} (h : r ∈ searchGpt4o resp author year) :
    1/2 ≤ r.confidence ∧ r.confidence ≤ 1 := by
  rcases resp with _ | g
  · simp [searchGpt4o] at h
  · exact aiResultFromGuess_conf_bounds h

lemma searchClaude_conf_bounds {resp : Option AIGuess} {author year : String}
    {r : SearchResult} (h : r ∈ searchClaude resp author year) :
    1/2 ≤ r.confidence ∧ r.confidence ≤ 1 := by
  rcases resp with _ | g
  · simp [searchClaude] at h
  · exact aiResultFromGuess_conf_bounds h

lemma tier1Good_isSome_iff (results : List SearchResult) :
    (tier1Good results).isSome ↔ ∃ r ∈ results, 1/2 ≤ r.confidence := by
  unfold tier1Good
  have hd12 : dec 1 2 = (1:ℚ)/2 := by norm_num [dec_eq_div]
  rcases hs : pySortDesc results with _ | ⟨b, t⟩
  · rw [pySortDesc_eq_nil.1 hs]
    simp
  · have hb : b ∈ results := mem_pySortDesc.1 (hs ▸ List.mem_cons_self b t)
    rw [hd12]
    by_cases hc : (1:ℚ)/2 ≤ b.confidence
    · simp only [hc, if_true, Option.isSome_some, true_iff]
      exact ⟨b, hb, hc⟩
    · simp only [hc, if_false]
      refine iff_of_false (by simp) ?_
      rintro ⟨r, hr, hrc⟩
      exact hc (hrc.trans (pySortDesc_head_max hs r hr))

lemma searchAITiers_claudeNeeded (gpt claude : Option AIGuess)
    (results0 : List SearchResult) (author year : String) :
    (searchAITiers gpt claude results0 author year).2 = true ↔
      searchGpt4o gpt author year = [] := by
  unfold searchAITiers
  rcases hgs : pySortDesc (searchGpt4o gpt author year) with _ | ⟨g, t⟩
  · have hnil : searchGpt4o gpt author year = [] := pySortDesc_eq_nil.1 hgs
    simp only [hgs, hnil]
    rcases h2 : pySortDesc (results0 ++ searchClaude claude author year) with _ | _ <;>
      simp [h2]
  · have hg : g ∈ searchGpt4o gpt author year :=
      mem_pySortDesc.1 (hgs ▸ List.mem_cons_self g t)
    have hge := (searchGpt4o_conf_bounds hg).1
    have hne : searchGpt4o gpt author year ≠ [] := by
      intro hnil
      rw [hnil] at hg
      exact absurd hg (List.not_mem_nil g)
    simp only [hgs]
    have hnlt : ¬ g.confidence < dec 1 2 := by
      rw [show dec 1 2 = (1:ℚ)/2 from by norm_num [dec_eq_div]]
      exact not_lt.2 hge
    have hdec : (g.confidence < dec 1 2) = False := eq_false hnlt
    rcases h2 : pySortDesc (if dec 1 2 ≤ g.confidence then results0 ++ g :: t else results0)
      with _ | _ <;> simp [hdec, h2, hne]

lemma tier1Good_some {results : List SearchResult} {b : SearchResult}
    (h : tier1Good results = some b) : 1/2 ≤ b.confidence := by
  unfold tier1Good at h
  rcases hs : pySortDesc results with _ | ⟨x, t⟩ <;> rw [hs] at h
  · simp at h
  · dsimp only at h
    rw [show dec 1 2 = (1:ℚ)/2 from by norm_num [dec_eq_div]] at h
    split_ifs at h with hc
    injection h with h2
    subst h2
    exact hc

lemma searchGpt4o_empty_iff (resp : Option AIGuess) (author year : String) :
    searchGpt4o resp author year = [] ↔
      ¬ ∃ r ∈ searchGpt4o resp author year, 1/2 ≤ r.confidence := by
  constructor
  · intro h
    rw [h]
    simp
  · intro h
    rcases hg : searchGpt4o resp author year with _ | ⟨r, t⟩
    · rfl
    · exact absurd ⟨r, hg ▸ List.mem_cons_self r t,
        (searchGpt4o_conf_bounds (hg ▸ List.mem_cons_self r t)).1⟩ h

/-- **C2** (Resolver monotonic escalation).  For every provider
environment without a hanging Tier-1 call and every query with a usable
year: Tier 2 (GPT-4o) is invoked exactly when no Tier-1 candidate
scored `≥ 0.5`; Tier 3 (Claude) is invoked exactly when Tier 2 ran and
produced no result with confidence `≥ 0.5`; and whenever Tier 1
promotes a best candidate scoring `≥ 0.5`, that candidate is returned
immediately and neither AI provider is ever invoked. -/
theorem c2_resolver_monotonic_escalation (env : ResolverEnv)
    (author year : String) (sa ta : Option String)
    (hy : year ≠ "n.d.") (hh : anyHang env = false) :
    ((search env author year sa ta).2.gpt4o = true ↔
      ¬ ∃ r ∈ tier1Collected env author year sa ta, 1/2 ≤ r.confidence) ∧
    ((search env author year sa ta).2.claude = true ↔
      ((search env author year sa ta).2.gpt4o = true ∧
        ¬ ∃ r ∈ searchGpt4o env.gpt4o author year, 1/2 ≤ r.confidence)) ∧
    (∀ b, tier1Good (tier1Collected env author year sa ta) = some b →
      1/2 ≤ b.confidence ∧
      search env author year sa ta =
        (.ok (some (setRawSource b.metadata author year)), tier1Trace)) := by
  have hsearch : search env author year sa ta =
      match tier1Good (tier1Collected env author year sa ta) with
      | some best => (.ok (some (setRawSource best.metadata author year)), tier1Trace)
      | none =>
        let ai := searchAITiers env.gpt4o env.claude
          (pySortDesc (tier1Collected env author year sa ta)) author year
        (.ok ai.1, { tier1Trace with gpt4o := true, claude := ai.2 }) := by
    unfold search
    rw [if_neg hy, if_neg (by simp [hh])]
  rcases hgood : tier1Good (tier1Collected env author year sa ta) with _ | b
  · rw [hgood] at hsearch
    have hnotex : ¬ ∃ r ∈ tier1Collected env author year sa ta, 1/2 ≤ r.confidence := by
      rw [← tier1Good_isSome_iff, hgood]
      simp
    refine ⟨?_, ?_, ?_⟩
    · rw [hsearch]
      exact iff_of_true rfl hnotex
    · rw [hsearch]
      dsimp only
      rw [searchAITiers_claudeNeeded, searchGpt4o_empty_iff]
      simp
    · intro b hb
      exact absurd hb (by simp)
  · rw [hgood] at hsearch
    have hex : ∃ r ∈ tier1Collected env author year sa ta, 1/2 ≤ r.confidence := by
      rw [← tier1Good_isSome_iff, hgood]
      rfl
    refine ⟨?_, ?_, ?_⟩
    · rw [hsearch]
      exact iff_of_false (by simp [tier1Trace]) (not_not_intro hex)
    · rw [hsearch]
      refine iff_of_false (by simp [tier1Trace]) ?_
      rintro ⟨hgpt, -⟩
      simp [tier1Trace] at hgpt
    · intro b2 hb2
      injection hb2 with h2
      subst h2
      exact ⟨tier1Good_some hgood, hsearch⟩

/-! ## Claims about the resolver and the AI tiers -/

/-- Witness environment for C2: Crossref answers the Bandura query with
a DOI-carrying exact match (spec §8's scenario). -/
def c2WitnessMeta : CitationMetadata :=
  { title := "Self-efficacy: Toward a unifying theory of behavioral change"
    authors := ["Bandura, Albert"]
    year := "1977"
    journal := "Psychological Review"
    doi := "10.1037/0033-295X.84.2.191" }

/-- Witness environment for C2. -/
def c2WitnessEnv : ResolverEnv := { crossref := .found c2WitnessMeta }

theorem c2_resolver_monotonic_escalation_witness :
    (("1977" : String) ≠ "n.d." ∧ anyHang c2WitnessEnv = false) ∧
    (((search c2WitnessEnv "Bandura" "1977" none none).2.gpt4o = true ↔
      ¬ ∃ r ∈ tier1Collected c2WitnessEnv "Bandura" "1977" none none,
        1/2 ≤ r.confidence) ∧
    ((search c2WitnessEnv "Bandura" "1977" none none).2.claude = true ↔
      ((search c2WitnessEnv "Bandura" "1977" none none).2.gpt4o = true ∧
        ¬ ∃ r ∈ searchGpt4o c2WitnessEnv.gpt4o "Bandura" "1977",
          1/2 ≤ r.confidence)) ∧
    (∀ b, tier1Good (tier1Collected c2WitnessEnv "Bandura" "1977" none none) = some b →
      1/2 ≤ b.confidence ∧
      search c2WitnessEnv "Bandura" "1977" none none =
        (.ok (some (setRawSource b.metadata "Bandura" "1977")), tier1Trace))) :=
  ⟨⟨by decide, by decide⟩,
    c2_resolver_monotonic_escalation c2WitnessEnv "Bandura" "1977" none none
      (by decide) (by decide)⟩

/-- The C4 failing input: every Tier-1 provider is unresponsive past the
collective deadline. -/
def allHangEnv : ResolverEnv :=
  { crossref := .hangs, openalex := .hangs, googleScholar := .hangs,
    arrival := [] }

/-- **C4** (code bug).  When every Tier-1 provider hangs past the 8 s
collective wait, `as_completed(futures, timeout=8.0)` raises
`concurrent.futures.TimeoutError`; `AuthorDateEngine.search` only
catches exceptions of individual `future.result()` calls, so the
timeout escapes `resolve` as an exception instead of the claimed
`Unresolved` (`None`) return.  `search_multiple` (`resolveBatch`)
catches it per citation and maps the entry to `None`, so only the
batch interface satisfies the claim. -/
theorem c4_search_timeout_escapes :
    search allHangEnv "Smith" "2020" none none = (.error .timeout, tier1Trace) ∧
    searchMultiple (fun _ _ => allHangEnv) [("Smith", "2020", none, none)] =
      [(("smith", "2020"), none)] := by
  constructor
  · rfl
  · rfl

/-- C1 counterexample input: a Tier-2 guess with self-reported
confidence 0.4 (spec: `≥ 0.3`, so it must be verified, not dropped). -/
def c1LowGuess : AIGuess :=
  { confidence := dec 2 5, title := "Some Plausible Work", authors := ["Janet Smith"] }

/-- C1 counterexample environment with the 0.4-confidence guess. -/
def c1LowGuessEnv : ResolverEnv := { gpt4o := some c1LowGuess }

/-- C1 counterexample input: a Tier-2 guess with self-reported
confidence 0.6 (returned `Resolved` with no verification at all). -/
def c1HighGuess : AIGuess :=
  { confidence := dec 3 5, title := "Some Plausible Work", authors := ["Janet Smith"] }

/-- C1 counterexample environment with the 0.6-confidence guess. -/
def c1HighGuessEnv : ResolverEnv := { gpt4o := some c1HighGuess }

/-- The metadata `search` returns for the 0.6-confidence guess —
built purely from the guess itself, no database record involved. -/
def c1HighResultMeta : CitationMetadata :=
  { title := "Some Plausible Work", authors := ["Janet Smith"], year := "2020",
    source_engine := "GPT-4o", raw_source := "(Smith, 2020)" }

/-- **C1** (counterexample).  In the resolver's AI tiers the claim
fails twice at concrete inputs: a GPT-4o guess with self-reported
confidence `0.4 ≥ 0.3` is discarded outright (the tier's cutoff is
`0.5`, not `0.3`) with zero Hallucination-Verifier invocations, and a
guess with confidence `0.6 ≥ 0.3` is returned as `Resolved` — also with
zero verifier invocations, contradicting "every guess with self-reported
confidence >= 0.3 is passed to the Hallucination Verifier before it may
be returned as Resolved". -/
theorem c1_counterexample :
    ((3:ℚ)/10 ≤ c1LowGuess.confidence ∧
      search c1LowGuessEnv "Smith" "2020" none none =
      (.ok none, { crossref := true, openalex := true, googleScholar := true,
                   gpt4o := true, claude := true, verifierCalls := 0 })) ∧
    ((3:ℚ)/10 ≤ c1HighGuess.confidence ∧
      search c1HighGuessEnv "Smith" "2020" none none =
        (.ok (some c1HighResultMeta),
         { crossref := true, openalex := true, googleScholar := true,
           gpt4o := true, claude := false, verifierCalls := 0 })) := by
  refine ⟨⟨by norm_num [c1LowGuess, dec_eq_div], ?_⟩,
    ⟨by norm_num [c1HighGuess, dec_eq_div], ?_⟩⟩ <;> with_unfolding_all rfl

/-- **C1** (amended).  In `AuthorDateEngine`'s AI tiers (Tier 2 GPT-4o,
Tier 3 Claude) the discard threshold is `0.5`, a discarded guess gets
no further work, and the Hallucination Verifier is never invoked from
`search` at all (only an author-substring self-check gates AI results).
The claimed `0.3` threshold and the mandatory verification live in the
fragment-lookup path (`lookup_fragment`): there a guess with confidence
`< 0.3` is discarded with no verification attempted, and every guess
`≥ 0.3` is passed to the database verifier (when verification is
enabled). -/
theorem c1_ai_tier_thresholds_amended :
    (∀ (g : AIGuess) (author year : String), g.confidence < 1/2 →
      searchGpt4o (some g) author year = [] ∧
      searchClaude (some g) author year = []) ∧
    (∀ (env : ResolverEnv) (author year : String) (sa ta : Option String),
      (search env author year sa ta).2.verifierCalls = 0) ∧
    (∀ (g : AIGuess) (dbv : Option CitationMetadata) (fragment : String),
      g.confidence < 3/10 →
      lookupFragment (some g) dbv fragment true = (none, 0)) ∧
    (∀ (g : AIGuess) (dbv : Option CitationMetadata) (fragment : String),
      3/10 ≤ g.confidence →
      (lookupFragment (some g) dbv fragment true).2 = 1) := by
  refine ⟨?_, ?_, ?_, ?_⟩
  · intro g author year h
    have h2 : g.confidence < dec 1 2 := by
      rw [show dec 1 2 = (1:ℚ)/2 from by norm_num [dec_eq_div]]
      exact h
    constructor
    · unfold searchGpt4o aiResultFromGuess
      dsimp only
      rw [if_pos h2]
    · unfold searchClaude aiResultFromGuess
      dsimp only
      rw [if_pos h2]
  · intro env author year sa ta
    unfold search
    split_ifs with h1 h2
    · rfl
    · rfl
    · dsimp only
      rcases tier1Good (tier1Collected env author year sa ta) with _ | b <;> rfl
  · intro g dbv fragment h
    have h2 : g.confidence < dec 3 10 := by
      rw [show dec 3 10 = (3:ℚ)/10 from by norm_num [dec_eq_div]]
      exact h
    unfold lookupFragment
    dsimp only
    rw [if_pos h2]
  · intro g dbv fragment h
    have h2 : ¬ g.confidence < dec 3 10 := by
      rw [show dec 3 10 = (3:ℚ)/10 from by norm_num [dec_eq_div]]
      exact not_lt.2 h
    unfold lookupFragment
    dsimp only
    rw [if_neg h2]
    rcases dbv with _ | v
    · rw [if_neg (by simp)]
      split_ifs <;> rfl
    · rfl

/-- C1 witness input for the fragment path below the 0.3 threshold. -/
def c1FragmentLowGuess : AIGuess := { confidence := dec 1 5, title := "Anything" }

theorem c1_ai_tier_thresholds_amended_witness :
    (searchGpt4o (some c1LowGuess) "Smith" "2020" = [] ∧
      searchClaude (some c1LowGuess) "Smith" "2020" = []) ∧
    (search c1LowGuessEnv "Smith" "2020" none none).2.verifierCalls = 0 ∧
    lookupFragment (some c1FragmentLowGuess) none "caplan trains brains" true =
      (none, 0) ∧
    (lookupFragment (some c1HighGuess) none "caplan trains brains" true).2 = 1 :=
  ⟨c1_ai_tier_thresholds_amended.1 c1LowGuess "Smith" "2020"
     (by norm_num [c1LowGuess, dec_eq_div]),
   c1_ai_tier_thresholds_amended.2.1 c1LowGuessEnv "Smith" "2020" none none,
   c1_ai_tier_thresholds_amended.2.2.1 c1FragmentLowGuess none
     "caplan trains brains" (by norm_num [c1FragmentLowGuess, dec_eq_div]),
   c1_ai_tier_thresholds_amended.2.2.2 c1HighGuess none
     "caplan trains brains" (by norm_num [c1HighGuess, dec_eq_div])⟩

/-- **C6** (escape valve).  When `_verify_against_databases` fails
(returns nothing), a guess with self-reported confidence `≥ 0.9` and a
nonempty title is returned `Resolved` without verification, its final
confidence multiplied by `0.8` and its source tagged
`"AI Lookup (unverified)"`; a guess below `0.9` that fails verification
is rejected (`None`). -/
theorem c6_escape_valve (g : AIGuess) (fragment : String) :
    (dec 9 10 ≤ g.confidence → g.title ≠ "" →
      lookupFragment (some g) none fragment true =
        (some { guessToMetadata g fragment with
                  source_engine := "AI Lookup (unverified)"
                  confidence := g.confidence * dec 8 10 }, 1)) ∧
    (dec 3 10 ≤ g.confidence → g.confidence < dec 9 10 →
      lookupFragment (some g) none fragment true = (none, 1)) := by
  have hd3 : dec 3 10 = (3:ℚ)/10 := by norm_num [dec_eq_div]
  have hd9 : dec 9 10 = (9:ℚ)/10 := by norm_num [dec_eq_div]
  constructor
  · intro h9 ht
    have hnlt : ¬ g.confidence < dec 3 10 := by
      rw [hd3]
      rw [hd9] at h9
      exact not_lt.2 (le_trans (by norm_num) h9)
    unfold lookupFragment
    dsimp only
    rw [if_neg hnlt]
    rw [if_neg (by simp)]
    rw [if_pos (by simp only [Bool.and_eq_true, decide_eq_true_eq]; exact ⟨h9, ht⟩)]
  · intro h3 hlt
    have hnlt : ¬ g.confidence < dec 3 10 := not_lt.2 h3
    unfold lookupFragment
    dsimp only
    rw [if_neg hnlt]
    rw [if_neg (by simp)]
    have hcond : ¬ ((dec 9 10 ≤ g.confidence && g.title ≠ "") = true) := by
      simp only [Bool.and_eq_true, decide_eq_true_eq, not_and]
      exact fun h9 => absurd h9 (not_le.2 hlt)
    rw [if_neg hcond]

/-- C6 witness input: a 0.95-confidence guess. -/
def c6HighGuess : AIGuess :=
  { confidence := dec 19 20
    title := "Trains, Brains, and Sprains"
    authors := ["Eric Caplan"] }

/-- C6 witness input: a 0.6-confidence guess. -/
def c6MidGuess : AIGuess :=
  { confidence := dec 3 5, title := "Some Work", authors := ["Janet Smith"] }

theorem c6_escape_valve_witness :
    lookupFragment (some c6HighGuess) none "caplan trains brains" true =
      (some { guessToMetadata c6HighGuess "caplan trains brains" with
                source_engine := "AI Lookup (unverified)"
                confidence := c6HighGuess.confidence * dec 8 10 }, 1) ∧
    lookupFragment (some c6MidGuess) none "caplan trains brains" true = (none, 1) :=
  ⟨(c6_escape_valve c6HighGuess "caplan trains brains").1
      (by norm_num [c6HighGuess, dec_eq_div]) (by decide),
   (c6_escape_valve c6MidGuess "caplan trains brains").2
      (by norm_num [c6MidGuess, dec_eq_div]) (by norm_num [c6MidGuess, dec_eq_div])⟩

/-- **C7** (confidence boundedness).  The Scorer
(`_calculate_confidence`) returns a value in `[0,1]` for every
candidate and every combination of query signals, and every confidence
a pipeline stage attaches to a candidate — including the Crossref DOI
boost, the Google-Scholar no-DOI penalty, and the capped AI-tier
confidences — lies in `[0,1]`; in the fragment-lookup path the returned
confidence stays in `[0,1]` whenever the AI's self-reported confidence
respects the provider contract `0 ≤ confidence ≤ 1`. -/
theorem c7_confidence_bounded :
    (∀ (c : CitationMetadata) (author year : String) (sa ta : Option String),
      0 ≤ calculateConfidence c author year sa ta ∧
        calculateConfidence c author year sa ta ≤ 1) ∧
    (∀ (outcome : Tier1Outcome) (author year : String) (sa ta : Option String)
        (r : SearchResult), r ∈ crossrefResults outcome author year sa ta →
      0 ≤ r.confidence ∧ r.confidence ≤ 1) ∧
    (∀ (outcome : Tier1Outcome) (author year : String) (sa ta : Option String)
        (r : SearchResult), r ∈ openalexResults outcome author year sa ta →
      0 ≤ r.confidence ∧ r.confidence ≤ 1) ∧
    (∀ (outcome : Tier1Outcome) (author year : String) (sa ta : Option String)
        (r : SearchResult), r ∈ googleScholarResults outcome author year sa ta →
      0 ≤ r.confidence ∧ r.confidence ≤ 1) ∧
    (∀ (resp : Option AIGuess) (author year : String) (r : SearchResult),
      r ∈ searchGpt4o resp author year →
      0 ≤ r.confidence ∧ r.confidence ≤ 1) ∧
    (∀ (resp : Option AIGuess) (author year : String) (r : SearchResult),
      r ∈ searchClaude resp author year →
      0 ≤ r.confidence ∧ r.confidence ≤ 1) ∧
    (∀ (g : AIGuess) (fragment : String) (m : CitationMetadata) (k : Nat),
      0 ≤ g.confidence → g.confidence ≤ 1 →
      lookupFragment (some g) none fragment true = (some m, k) →
      0 ≤ m.confidence ∧ m.confidence ≤ 1) := by
  refine ⟨calculateConfidence_bounds, ?_, ?_, ?_, ?_, ?_, ?_⟩
  · intro outcome author year sa ta r hr
    rcases outcome with m | _ | _ | _ <;> simp [crossrefResults] at hr
    obtain ⟨-, -, rfl⟩ := hr
    exact crossrefScore_bounds m author year sa ta
  · intro outcome author year sa ta r hr
    rcases outcome with m | _ | _ | _ <;> simp [openalexResults] at hr
    obtain ⟨-, -, rfl⟩ := hr
    exact calculateConfidence_bounds m author year sa ta
  · intro outcome author year sa ta r hr
    rcases outcome with m | _ | _ | _ <;> simp [googleScholarResults] at hr
    obtain ⟨-, rfl⟩ := hr
    exact googleScholarScore_bounds m author year sa ta
  · intro resp author year r hr
    have h := searchGpt4o_conf_bounds hr
    exact ⟨by linarith [h.1], h.2⟩
  · intro resp author year r hr
    have h := searchClaude_conf_bounds hr
    exact ⟨by linarith [h.1], h.2⟩
  · intro g fragment m k h0 h1 heq
    have hd3 : dec 3 10 = (3:ℚ)/10 := by norm_num [dec_eq_div]
    have hd8 : dec 8 10 = (8:ℚ)/10 := by norm_num [dec_eq_div]
    unfold lookupFragment at heq
    dsimp only at heq
    split_ifs at heq with hc hcond hesc
    · exact absurd heq (by simp)
    · exact absurd hcond (by simp)
    · have hm : m = { guessToMetadata g fragment with
          source_engine := "AI Lookup (unverified)"
          confidence := g.confidence * dec 8 10 } := by
        have h2 := congrArg Prod.fst heq
        simp only at h2
        exact (Option.some.inj h2).symm
      subst hm
      have hb1 : (0:ℚ) ≤ g.confidence * dec 8 10 := by
        rw [hd8]
        nlinarith
      have hb2 : g.confidence * dec 8 10 ≤ 1 := by
        rw [hd8]
        nlinarith
      exact ⟨hb1, hb2⟩
    · exact absurd heq (by simp)

/-- Concrete Tier-2 entry used to witness C7's AI-tier conjuncts. -/
def c7GptEntry : SearchResult :=
  { metadata := { title := "Some Plausible Work", authors := ["Janet Smith"],
                  year := "2020", source_engine := "GPT-4o" }
    confidence := dec 7 10
    match_reason := "GPT-4o contextual match" }

/-- Concrete Tier-3 entry used to witness C7's AI-tier conjuncts. -/
def c7ClaudeEntry : SearchResult :=
  { metadata := { title := "Some Plausible Work", authors := ["Janet Smith"],
                  year := "2020", source_engine := "Claude AI" }
    confidence := dec 7 10
    match_reason := "Claude AI contextual match" }

/-- Concrete Crossref entry used to witness C7. -/
def c7CrossrefEntry : SearchResult :=
  { metadata := c2WitnessMeta
    confidence := dec 95 100
    match_reason := "Crossref author+year match" }

/-- Concrete OpenAlex entry used to witness C7. -/
def c7OpenalexEntry : SearchResult :=
  { metadata := c2WitnessMeta
    confidence := dec 85 100
    match_reason := "OpenAlex author+year match" }

/-- Concrete Google-Scholar entry used to witness C7. -/
def c7ScholarEntry : SearchResult :=
  { metadata := c2WitnessMeta
    confidence := dec 85 100
    match_reason := "Google Scholar author+year match" }

theorem c7_confidence_bounded_witness :
    (0 ≤ calculateConfidence c2WitnessMeta "Bandura" "1977" none none ∧
      calculateConfidence c2WitnessMeta "Bandura" "1977" none none ≤ 1) ∧
    (0 ≤ c7CrossrefEntry.confidence ∧ c7CrossrefEntry.confidence ≤ 1) ∧
    (0 ≤ c7OpenalexEntry.confidence ∧ c7OpenalexEntry.confidence ≤ 1) ∧
    (0 ≤ c7ScholarEntry.confidence ∧ c7ScholarEntry.confidence ≤ 1) ∧
    (0 ≤ c7GptEntry.confidence ∧ c7GptEntry.confidence ≤ 1) ∧
    (0 ≤ c7ClaudeEntry.confidence ∧ c7ClaudeEntry.confidence ≤ 1) ∧
    (0 ≤ (c6HighGuess.confidence * dec 8 10) ∧
      c6HighGuess.confidence * dec 8 10 ≤ 1) := by
  have hcr : crossrefResults (.found c2WitnessMeta) "Bandura" "1977" none none =
      [c7CrossrefEntry] := by with_unfolding_all rfl
  have hoa : openalexResults (.found c2WitnessMeta) "Bandura" "1977" none none =
      [c7OpenalexEntry] := by with_unfolding_all rfl
  have hgs : googleScholarResults (.found c2WitnessMeta) "Bandura" "1977" none none =
      [c7ScholarEntry] := by with_unfolding_all rfl
  have hgpt : searchGpt4o (some c1HighGuess) "Smith" "2020" = [c7GptEntry] := by
    with_unfolding_all rfl
  have hcl : searchClaude (some c1HighGuess) "Smith" "2020" = [c7ClaudeEntry] := by
    with_unfolding_all rfl
  have hfrag : lookupFragment (some c6HighGuess) none "caplan trains brains" true =
      (some { guessToMetadata c6HighGuess "caplan trains brains" with
                source_engine := "AI Lookup (unverified)"
                confidence := c6HighGuess.confidence * dec 8 10 }, 1) := by
    with_unfolding_all rfl
  refine ⟨c7_confidence_bounded.1 c2WitnessMeta "Bandura" "1977" none none,
    c7_confidence_bounded.2.1 (.found c2WitnessMeta) "Bandura" "1977" none none
      c7CrossrefEntry (by rw [hcr]; exact List.mem_singleton.2 rfl),
    c7_confidence_bounded.2.2.1 (.found c2WitnessMeta) "Bandura" "1977" none none
      c7OpenalexEntry (by rw [hoa]; exact List.mem_singleton.2 rfl),
    c7_confidence_bounded.2.2.2.1 (.found c2WitnessMeta) "Bandura" "1977" none none
      c7ScholarEntry (by rw [hgs]; exact List.mem_singleton.2 rfl),
    c7_confidence_bounded.2.2.2.2.1 (some c1HighGuess) "Smith" "2020"
      c7GptEntry (by rw [hgpt]; exact List.mem_singleton.2 rfl),
    c7_confidence_bounded.2.2.2.2.2.1 (some c1HighGuess) "Smith" "2020"
      c7ClaudeEntry (by rw [hcl]; exact List.mem_singleton.2 rfl),
    ?_⟩
  have hb := c7_confidence_bounded.2.2.2.2.2.2 c6HighGuess "caplan trains brains"
    ({ guessToMetadata c6HighGuess "caplan trains brains" with
         source_engine := "AI Lookup (unverified)"
         confidence := c6HighGuess.confidence * dec 8 10 }) 1
    (by norm_num [c6HighGuess, dec_eq_div]) (by norm_num [c6HighGuess, dec_eq_div]) hfrag
  exact hb

/-- The C3 counterexample candidate: a PMID but no DOI, an exact year
match, a primary-author match, and a title as its only completeness
point. -/
def c3PmidOnly : CitationMetadata :=
  { title := "Neural Mechanisms", authors := ["Smith, J."], year := "2020",
    pmid := "12345678" }

/-- C3 counterexample: on a PMID-only candidate the code's
Google-Scholar scoring path gives `0.3 + 0.3 + 0.05 − 0.05 = 0.6` —
the scorer consults only the DOI, so the PMID earns no `+0.15` and the
no-identifier penalty still fires — whereas the claim's table, whose
"persistent identifier" covers DOI and PMID, gives
`0.3 + 0.3 + 0.15 + 0.05 = 0.8`. -/
theorem c3_counterexample :
    googleScholarScore c3PmidOnly "Smith" "2020" none none = dec 6 10
  ∧ specScoreC3 c3PmidOnly "Smith" "2020" none none = dec 8 10
  ∧ googleScholarScore c3PmidOnly "Smith" "2020" none none ≠
      specScoreC3 c3PmidOnly "Smith" "2020" none none := by
  have h1 : googleScholarScore c3PmidOnly "Smith" "2020" none none = dec 6 10 := by
    with_unfolding_all rfl
  have h2 : specScoreC3 c3PmidOnly "Smith" "2020" none none = dec 8 10 := by
    with_unfolding_all rfl
  refine ⟨h1, h2, ?_⟩
  rw [h1, h2]
  norm_num [dec_eq_div]

/-- **C3** (score contributions, amended).  The confidence score of a
candidate — `_calculate_confidence` composed with the no-DOI penalty of
the Google-Scholar scoring path — equals the claimed additive table
clamped to `[0,1]`, once "the candidate carries a persistent
identifier" is read as "the candidate carries a DOI": the scorer never
consults `metadata.pmid`, so a PMID neither earns the `+0.15`
identifier bonus nor averts the `−0.05` penalty. -/
theorem c3_score_contributions_amended (c : CitationMetadata)
    (author year : String) (sa ta : Option String) :
    googleScholarScore c author year sa ta = amendedScoreC3 c author year sa ta :=
  googleScholarScore_eq_amended c author year sa ta

/-- The C5 counterexample candidate: year 2000, against a fragment
containing the 4-digit year 1999 and no meaningful tokens. -/
def c5YearSkipCandidate : CitationMetadata :=
  { title := "Glacier Dynamics", authors := ["Jane Roe"], year := "2000" }

/-- **C5** (counterexample).  On fragment `"the 1999"` every token is a
stop-word or a bare numeral; the code then accepts any titled candidate
outright — skipping the year check — so a candidate dated 2000 passes,
while the claim's rule ("if the fragment contains a 4-digit year the
candidate's year must equal it exactly") rejects it.  `specC5Rule` is
the claim's rule transcribed verbatim. -/
theorem c5_counterexample :
    resultMatchesFragment c5YearSkipCandidate "the 1999" = true ∧
    specC5Rule c5YearSkipCandidate "the 1999" = false := by
  constructor <;> rfl

/-- The claim's own example candidate: an unrelated work titled "Brain
Injury Rehabilitation Outcomes". -/
def c5CaplanCandidate : CitationMetadata :=
  { title := "Brain Injury Rehabilitation Outcomes"
    authors := ["John Doe"]
    year := "1995" }

/-- **C5** (amended).  The verifier's matching rule equals the claimed
rule amended as the counterexample forces: tokens shorter than 3
characters are also discarded; an empty-titled candidate is rejected;
a fragment with no remaining meaningful token is accepted with no year
check; token matching is substring containment in the concatenation of
title and authors; and the year check fires only for a year 1900–2099
in the fragment and a candidate whose year is nonempty.  The claim's
concrete instance stands: "Caplan trains brains" is rejected against
the unrelated candidate. -/
theorem c5_matching_rule_amended :
    (∀ (c : CitationMetadata) (fragment : String),
      resultMatchesFragment c fragment = amendedC5Rule c fragment) ∧
    resultMatchesFragment c5CaplanCandidate "Caplan trains brains" = false :=
  ⟨resultMatchesFragment_eq_amended, by rfl⟩

/-! ## The author-date extractor (`processors/author_year_extractor.py`)

Each regex below transliterates one pattern literal of
`AuthorDateExtractor`, with capture-group numbers assigned exactly as
Python numbers them (by position of the opening parenthesis).  A `ci`
flag reproduces `re.IGNORECASE` where the source compiles with it.
Character classes are taken at their ASCII/Latin extent, which covers
every subject string considered below; `$` is rendered as end-of-subject
(no pattern here is compiled with `re.MULTILINE`, and no subject ends in
a newline). -/

/-- Python `\s*`. -/
def ws : RE := RE.star clsSpace

/-- Python `\s+`. -/
def ws1 : RE := rPlus clsSpace

/-- Python `\s*,\s*`. -/
def commaSep : RE := rSeq [ws, chC ',', ws]

/-- Python `,?`. -/
def optComma : RE := rOpt (chC ',')

/-- A literal string, case-sensitive or under `re.IGNORECASE`. -/
def rStrOf (ci : Bool) (s : String) : RE := if ci then rStrCI s else rStr s

/-- The class `[A-ZÀ-ɏ]` opening `AUTHOR_CORE` (uppercase under
`re.IGNORECASE` also admits the lowercase letters). -/
def clsUpperStart (ci : Bool) : RE :=
  RE.cls fun c =>
    (if ci then c.isAlpha else ('A' ≤ c && c ≤ 'Z'))
    || (0xC0 ≤ c.toNat && c.toNat ≤ 0x24F)

/-- The class `[a-zA-ZÀ-ɏ'''\-]` continuing `AUTHOR_CORE`
(the source writes the ASCII apostrophe three times). -/
def clsNamePart : RE :=
  RE.cls fun c =>
    c.isAlpha || (0xC0 ≤ c.toNat && c.toNat ≤ 0x24F)
    || c.toNat = 39 || c = '-'

/-- The class `[a-z]` (under `re.IGNORECASE` also `[A-Z]`). -/
def clsLowerLetter (ci : Bool) : RE :=
  RE.cls fun c => ('a' ≤ c && c ≤ 'z') || (ci && 'A' ≤ c && c ≤ 'Z')

/-- The lowercase particles of `AUTHOR_PREFIX`. -/
def authorPrefixWords : List String :=
  ["van", "de", "von", "den", "der", "la", "le", "di", "da",
   "dos", "das", "del", "della", "du", "el", "al", "bin", "ibn"]

/-- `AUTHOR_PREFIX = (?:(?:van|de|...|ibn)\s+)?`. -/
def authorPrefixRE (ci : Bool) : RE :=
  rOpt (rSeq [rAlt (authorPrefixWords.map (rStrOf ci)), ws1])

/-- `AUTHOR_SUFFIX = (?:\s+(?:Jr\.?|Sr\.?|III|IV|V|2nd|3rd))?`. -/
def authorSuffixRE (ci : Bool) : RE :=
  rOpt (rSeq [ws1,
    rAlt [rSeq [rStrOf ci "Jr", rOpt (chC '.')],
          rSeq [rStrOf ci "Sr", rOpt (chC '.')],
          rStrOf ci "III", rStrOf ci "IV", rStrOf ci "V",
          rStrOf ci "2nd", rStrOf ci "3rd"]])

/-- `AUTHOR_NAME = AUTHOR_PREFIX AUTHOR_CORE AUTHOR_SUFFIX`. -/
def authorNameRE (ci : Bool) : RE :=
  rSeq [authorPrefixRE ci, clsUpperStart ci, rPlus clsNamePart,
        authorSuffixRE ci]

/-- `YEAR = (?:\d{4}[a-z]?|n\.d\.|in\s+press)`. -/
def yearRE (ci : Bool) : RE :=
  rAlt [rSeq [rRep 4 clsDigit, rOpt (clsLowerLetter ci)],
        rStrOf ci "n.d.",
        rSeq [rStrOf ci "in", ws1, rStrOf ci "press"]]

/-- The dash class `[-–—]` inside `PAGE`. -/
def clsDash : RE :=
  RE.cls fun c => c = '-' || c.toNat = 0x2013 || c.toNat = 0x2014

/-- `PAGE = (?:pp?\.\s*(\d+(?:\s*[-–—]\s*\d+)?))`, with `g` the number
Python gives its one capture group inside the enclosing pattern. -/
def pageRE (g : Nat) : RE :=
  rSeq [chC 'p', rOpt (chC 'p'), chC '.', ws,
    RE.grp g (rSeq [rPlus clsDigit,
      rOpt (rSeq [ws, clsDash, ws, rPlus clsDigit])])]

/-- `(?:,?\s*PAGE)?` as it closes patterns 0, 1, 2, 9, 11, 12, 13. -/
def optPage (g : Nat) : RE := rOpt (rSeq [optComma, ws, pageRE g])

/-- `ET_AL = et\s+al\.?`. -/
def etAlRE (ci : Bool) : RE :=
  rSeq [rStrOf ci "et", ws1, rStrOf ci "al", rOpt (chC '.')]

/-- `TRIGGER_WORDS` (only used under `re.IGNORECASE`). -/
def triggerWordsRE : RE :=
  rAlt [rSeq [rStrCI "textbook", rOpt (chCI 's')],
        rSeq [rStrCI "book", rOpt (chCI 's')],
        rSeq [rStrCI "article", rOpt (chCI 's')],
        rSeq [rStrCI "stud", rAlt [chCI 'y', rStrCI "ies"]],
        rSeq [rStrCI "paper", rOpt (chCI 's')],
        rSeq [rStrCI "work", rOpt (chCI 's')],
        rSeq [rStrCI "review", rOpt (chCI 's')],
        rSeq [rStrCI "volume", rOpt (chCI 's')],
        rSeq [rStrCI "monograph", rOpt (chCI 's')],
        rSeq [rStrCI "survey", rOpt (chCI 's')]]

/-- `CITATION_PREFIX = (?:see\s+|cf\.?\s+|e\.g\.,?\s+|i\.e\.,?\s+|also\s+|but\s+see\s+)`. -/
def citationPrefixRE : RE :=
  rAlt [rSeq [rStr "see", ws1],
        rSeq [rStr "cf", rOpt (chC '.'), ws1],
        rSeq [rStr "e.g.", optComma, ws1],
        rSeq [rStr "i.e.", optComma, ws1],
        rSeq [rStr "also", ws1],
        rSeq [rStr "but", ws1, rStr "see", ws1]]

/-- `CORPORATE_WORD = [A-Z][a-zA-Z]+`. -/
def corporateWordRE : RE :=
  rSeq [RE.cls (fun c => 'A' ≤ c && c ≤ 'Z'), rPlus (RE.cls Char.isAlpha)]

/-- `CORPORATE_CONNECTORS = (?:\s+(?:of|for|and|the|on|&)\s+)`. -/
def corporateConnectorRE : RE :=
  rSeq [ws1,
        rAlt [rStr "of", rStr "for", rStr "and", rStr "the", rStr "on",
              chC '&'],
        ws1]

/-- `CORPORATE_AUTHOR = (?:WORD(?:CONNECTORS|(?:\s+WORD))+)`. -/
def corporateAuthorRE : RE :=
  rSeq [corporateWordRE,
        rPlus (RE.alt corporateConnectorRE (rSeq [ws1, corporateWordRE]))]

/-- `AUTHOR_CHAIN`, capture group 1 of the two trigger patterns (which
compile with `re.IGNORECASE`). -/
def authorChainRE : RE :=
  RE.grp 1 (rSeq [authorNameRE true,
    RE.star (rSeq [commaSep, authorNameRE true]),
    rOpt (rSeq [ws, optComma, ws, rAlt [rStrCI "and", chC '&'], ws,
                authorNameRE true])])

/-- `PATTERNS[0]`: `\(({A})\s+{ET_AL},?\s*({YEAR})(?:,?\s*{PAGE})?\)`. -/
def pat0 : RE :=
  rSeq [chC '(', RE.grp 1 (authorNameRE false), ws1, etAlRE false,
        optComma, ws, RE.grp 2 (yearRE false), optPage 3, chC ')']

/-- `PATTERNS[1]`: `\(({A})\s*(?:&|and)\s*({A}),?\s*({YEAR})(?:,?\s*{PAGE})?\)`. -/
def pat1 : RE :=
  rSeq [chC '(', RE.grp 1 (authorNameRE false), ws,
        rAlt [chC '&', rStr "and"], ws, RE.grp 2 (authorNameRE false),
        optComma, ws, RE.grp 3 (yearRE false), optPage 4, chC ')']

/-- `PATTERNS[2]`: `\(({A})\s*,\s*({YEAR})(?:,?\s*{PAGE})?\)`. -/
def pat2 : RE :=
  rSeq [chC '(', RE.grp 1 (authorNameRE false), commaSep,
        RE.grp 2 (yearRE false), optPage 3, chC ')']

/-- `PATTERNS[3]`: `({A})\s+\(({YEAR}),\s*{PAGE}\)`. -/
def pat3 : RE :=
  rSeq [RE.grp 1 (authorNameRE false), ws1, chC '(',
        RE.grp 2 (yearRE false), chC ',', ws, pageRE 3, chC ')']

/-- `PATTERNS[4]`: `({A})\s+\(({YEAR})\)`. -/
def pat4 : RE :=
  rSeq [RE.grp 1 (authorNameRE false), ws1, chC '(',
        RE.grp 2 (yearRE false), chC ')']

/-- `PATTERNS[5]`: `({A})\s+{ET_AL}\s*\(({YEAR})\)`. -/
def pat5 : RE :=
  rSeq [RE.grp 1 (authorNameRE false), ws1, etAlRE false, ws, chC '(',
        RE.grp 2 (yearRE false), chC ')']

/-- `PATTERNS[6]`: `({A})\s+(?:&|and)\s+({A})\s*\(({YEAR})\)`. -/
def pat6 : RE :=
  rSeq [RE.grp 1 (authorNameRE false), ws1, rAlt [chC '&', rStr "and"],
        ws1, RE.grp 2 (authorNameRE false), ws, chC '(',
        RE.grp 3 (yearRE false), chC ')']

/-- `PATTERNS[7]`: `({A})(?:\s*,\s*{A})+\s*,?\s*and\s+{A}\s*\(({YEAR})\)`. -/
def pat7 : RE :=
  rSeq [RE.grp 1 (authorNameRE false),
        rPlus (rSeq [commaSep, authorNameRE false]), ws, optComma, ws,
        rStr "and", ws1, authorNameRE false, ws, chC '(',
        RE.grp 2 (yearRE false), chC ')']

/-- `PATTERNS[8]`: `({A})['’]s\s*\(({YEAR})\)`. -/
def pat8 : RE :=
  rSeq [RE.grp 1 (authorNameRE false),
        RE.cls (fun c => c.toNat = 39 || c.toNat = 0x2019), chC 's', ws,
        chC '(', RE.grp 2 (yearRE false), chC ')']

/-- `PATTERNS[9]`:
`\(({A})(?:\s*,\s*{A})+\s*,?\s*(?:&|and)\s*{A}\s*,\s*({YEAR})(?:,?\s*{PAGE})?\)`. -/
def pat9 : RE :=
  rSeq [chC '(', RE.grp 1 (authorNameRE false),
        rPlus (rSeq [commaSep, authorNameRE false]), ws, optComma, ws,
        rAlt [chC '&', rStr "and"], ws, authorNameRE false, commaSep,
        RE.grp 2 (yearRE false), optPage 3, chC ')']

/-- `PATTERNS[10]`: `\(({A})\s*,\s*({YEAR}(?:\s*,\s*{YEAR})+)\)`. -/
def pat10 : RE :=
  rSeq [chC '(', RE.grp 1 (authorNameRE false), commaSep,
        RE.grp 2 (rSeq [yearRE false, rPlus (rSeq [commaSep, yearRE false])]),
        chC ')']

/-- `PATTERNS[11]`: `\({PREFIX}({A})\s*,\s*({YEAR})(?:,?\s*{PAGE})?\)`. -/
def pat11 : RE :=
  rSeq [chC '(', citationPrefixRE, RE.grp 1 (authorNameRE false),
        commaSep, RE.grp 2 (yearRE false), optPage 3, chC ')']

/-- `PATTERNS[12]`:
`\({PREFIX}({A})\s*(?:&|and)\s*({A})\s*,\s*({YEAR})(?:,?\s*{PAGE})?\)`. -/
def pat12 : RE :=
  rSeq [chC '(', citationPrefixRE, RE.grp 1 (authorNameRE false), ws,
        rAlt [chC '&', rStr "and"], ws, RE.grp 2 (authorNameRE false),
        commaSep, RE.grp 3 (yearRE false), optPage 4, chC ')']

/-- `PATTERNS[13]`: `\({PREFIX}({A})\s+{ET_AL},?\s*({YEAR})(?:,?\s*{PAGE})?\)`. -/
def pat13 : RE :=
  rSeq [chC '(', citationPrefixRE, RE.grp 1 (authorNameRE false), ws1,
        etAlRE false, optComma, ws, RE.grp 2 (yearRE false), optPage 3,
        chC ')']

/-- `PATTERNS[14]`: `({CORPORATE})\s*\(({YEAR})\)`. -/
def pat14 : RE :=
  rSeq [RE.grp 1 corporateAuthorRE, ws, chC '(', RE.grp 2 (yearRE false),
        chC ')']

/-- `PATTERNS[15]`: `\(({CORPORATE})\s*,\s*({YEAR})\)`. -/
def pat15 : RE :=
  rSeq [chC '(', RE.grp 1 corporateAuthorRE, commaSep,
        RE.grp 2 (yearRE false), chC ')']

/-- `TRIGGER_PATTERN = \b{TRIGGER_WORDS}\b.*?{AUTHOR_CHAIN}\s*\(({YEAR})\)`
(`re.IGNORECASE`; `.` is any character but a newline). -/
def triggerPatternRE : RE :=
  rSeq [RE.bound, triggerWordsRE, RE.bound,
        RE.lazyStar (RE.cls fun c => c ≠ '\n'), authorChainRE, ws,
        chC '(', RE.grp 2 (yearRE true), chC ')']

/-- `TRIGGER_BY_PATTERN = \b{TRIGGER_WORDS}\s+(?:by|from|of)\s+{AUTHOR_CHAIN}\s*\(({YEAR})\)`
(`re.IGNORECASE`). -/
def triggerByPatternRE : RE :=
  rSeq [RE.bound, triggerWordsRE, ws1,
        rAlt [rStrCI "by", rStrCI "from", rStrCI "of"], ws1,
        authorChainRE, ws, chC '(', RE.grp 2 (yearRE true), chC ')']

/-- `MULTI_CITATION = \(([^)]+;\s*[^)]+)\)`. -/
def multiCitationRE : RE :=
  rSeq [chC '(',
        RE.grp 1 (rSeq [rPlus (RE.cls (fun c => c ≠ ')')), chC ';', ws,
                        rPlus (RE.cls (fun c => c ≠ ')'))]),
        chC ')']

/-- `^(?:see|e\.g\.|cf\.?|also)\s+` (`re.IGNORECASE`), the prefix strip
of `_parse_multi_author_segment`. -/
def segPrefixStripRE : RE :=
  rSeq [RE.bos,
        rAlt [rStrCI "see", rStrCI "e.g.",
              rSeq [rStrCI "cf", rOpt (chC '.')], rStrCI "also"],
        ws1]

/-- `\s+for\s+.*$` (`re.IGNORECASE`), the trailing-noise strip of
`_parse_multi_author_segment`. -/
def segTrailingForRE : RE :=
  rSeq [ws1, rStrCI "for", ws1, RE.star (RE.cls fun c => c ≠ '\n'),
        RE.eos]

/-- `^({A})\s*,\s*((?:\d{4}[a-z]?(?:\s*,\s*)?)+)\s*$`, the multi-year
segment test of `_parse_multi_author_segment`. -/
def segMultiYearRE : RE :=
  rSeq [RE.bos, RE.grp 1 (authorNameRE false), commaSep,
        RE.grp 2 (rPlus (rSeq [rRep 4 clsDigit,
                               rOpt (clsLowerLetter false),
                               rOpt commaSep])),
        ws, RE.eos]

/-- `\d{4}[a-z]?`, the year collector of the multi-year branches. -/
def yearDigitsRE : RE := rSeq [rRep 4 clsDigit, rOpt (clsLowerLetter false)]

/-- `,?\s*(\d{4}[a-z]?|n\.d\.|in\s+press)\s*$`, the year finder of
`_parse_multi_author_segment`. -/
def segYearEndRE : RE :=
  rSeq [optComma, ws, RE.grp 1 (yearRE false), ws, RE.eos]

/-- `({A})\s+et\s+al\.?` (`re.IGNORECASE`), the first-author finder in
an `et al.` segment. -/
def etAlFirstAuthorRE : RE :=
  rSeq [RE.grp 1 (authorNameRE true), ws1, etAlRE true]

/-- `\band\b` (`re.IGNORECASE`). -/
def andWordCIRE : RE := rSeq [RE.bound, rStrCI "and", RE.bound]

/-- `\s*(?:&|and)\s*` (`re.IGNORECASE`), the multi-author test of
`_parse_author_chain`. -/
def andAmpSearchRE : RE := rSeq [ws, rAlt [chC '&', rStrCI "and"], ws]

/-- `\s*(?:,|&|\band\b)\s*`, the author splitter of
`_parse_author_chain` and `_parse_multi_author_segment` (compiled
without flags). -/
def nameSplitRE : RE :=
  rSeq [ws, rAlt [chC ',', chC '&', rSeq [RE.bound, rStr "and", RE.bound]],
        ws]

/-- The dataclass `AuthorYearCitation`. -/
structure AuthorYearCitation where
  author : String
  year : String
  is_et_al : Bool := false
  second_author : Option String := none
  third_author : Option String := none
  page : Option String := none
  raw_text : String := ""
  deriving Repr, DecidableEq

/-- `AuthorYearCitation.search_key`: `(author.lower().strip(), year.strip())`. -/
def AuthorYearCitation.searchKey (c : AuthorYearCitation) : String × String :=
  (pyStrip (pyLower c.author), pyStrip c.year)

/-- The text of capture group `n`, as a string (Python `m.group(n)` for
a group the pattern guarantees to participate). -/
def grpStr (ctx : List Char) (m : RMatch) (n : Nat) : String :=
  (capStr ctx m.caps n).getD ""

/-- Python `s[0].isupper()` guarded by nonemptiness. -/
def pyHeadUpper (s : String) : Bool :=
  match s.data with
  | [] => false
  | c :: _ => c.isUpper

/-- The mutable state of `extract_from_text`: the collected citations,
the claimed character spans and the claimed `(lower(author), year)`
keys. -/
structure ExtractState where
  citations : List AuthorYearCitation := []
  foundSpans : List (Nat × Nat) := []
  foundKeys : List (String × String) := []

/-- The nested `add_if_new(citation, start, end, use_span)`: with
`use_span` the citation is dropped when its span overlaps a claimed
span, otherwise the span and key are claimed; without it the citation
is dropped when its key is already claimed. -/
def addIfNew (st : ExtractState) (c : AuthorYearCitation) (s e : Nat)
    (useSpan : Bool) : ExtractState :=
  let key := (pyLower c.author, c.year)
  if useSpan then
    if st.foundSpans.any (fun p => decide (s < p.2 ∧ p.1 < e)) then st
    else { citations := st.citations ++ [c],
           foundSpans := (s, e) :: st.foundSpans,
           foundKeys := key :: st.foundKeys }
  else
    if st.foundKeys.contains key then st
    else { st with citations := st.citations ++ [c],
                   foundKeys := key :: st.foundKeys }

/-- The simple-single-author fallback closing
`_parse_multi_author_segment`: `re.match(rf'({AUTHOR_NAME})', author_part)`. -/
def segmentSimpleAuthor (authorPart year raw : String) :
    List AuthorYearCitation :=
  match reMatch (RE.grp 1 (authorNameRE false)) authorPart with
  | some m => [{ author := grpStr authorPart.data m 1, year := year,
                 raw_text := raw }]
  | none => []

/-- `AuthorDateExtractor._parse_multi_author_segment`. -/
def parseMultiAuthorSegment (segment raw : String) :
    List AuthorYearCitation :=
  let seg := pyStrip segment
  let seg := reSubEmpty segPrefixStripRE seg
  let seg := reSubEmpty segTrailingForRE seg
  if seg = "" then []
  else
    let multiOut : Option (List AuthorYearCitation) :=
      match reMatch segMultiYearRE seg with
      | none => none
      | some m =>
        let author := grpStr seg.data m 1
        let years := reFindall yearDigitsRE (grpStr seg.data m 2)
        if 1 < years.length then
          some (years.map fun y => { author := author, year := y,
                                     raw_text := raw })
        else none
    match multiOut with
    | some l => l
    | none =>
      match reSearch segYearEndRE seg with
      | none => []
      | some ym =>
        let year := grpStr seg.data ym 1
        let authorPart :=
          pyStrip (pyRstripComma (pyStrip (String.mk (seg.data.take ym.start))))
        if authorPart = "" then []
        else
          let isEtAl := (reSearch (etAlRE true) authorPart).isSome
          let etAlOut : Option (List AuthorYearCitation) :=
            if isEtAl then
              match reMatch etAlFirstAuthorRE authorPart with
              | some em =>
                some [{ author := grpStr authorPart.data em 1, year := year,
                        is_et_al := true, raw_text := raw }]
              | none => none
            else none
          match etAlOut with
          | some l => l
          | none =>
            if strContains authorPart "&"
                || (reSearch andWordCIRE authorPart).isSome then
              let names := ((reSplit nameSplitRE authorPart).map pyStrip).filter
                fun p => !(p == "") && pyHeadUpper p
              if 1 ≤ names.length then
                let first := names.getD 0 ""
                if names.length = 2 then
                  [{ author := first, year := year,
                     second_author := some (names.getD 1 ""), raw_text := raw }]
                else if 3 ≤ names.length then
                  [{ author := first, year := year, is_et_al := true,
                     second_author := some (names.getD 1 ""),
                     third_author := some (names.getD 2 ""), raw_text := raw }]
                else
                  [{ author := first, year := year, raw_text := raw }]
              else segmentSimpleAuthor authorPart year raw
            else segmentSimpleAuthor authorPart year raw

/-- `AuthorDateExtractor._parse_author_chain`. -/
def parseAuthorChain (authorChain year raw : String) :
    Option AuthorYearCitation :=
  if authorChain = "" then none
  else
    let chain := pyStrip authorChain
    let hasAnd := (reSearch andAmpSearchRE chain).isSome
    let hasComma := strContains chain ","
    if hasAnd || hasComma then
      let names := ((reSplit nameSplitRE chain).map pyStrip).filter
        fun p => !(p == "") && decide (1 < p.length) && pyHeadUpper p
      if names.length = 0 then none
      else
        let first := names.getD 0 ""
        if names.length = 2 then
          some { author := first, year := year,
                 second_author := some (names.getD 1 ""), raw_text := raw }
        else if 3 ≤ names.length then
          some { author := first, year := year, is_et_al := true,
                 second_author := some (names.getD 1 ""),
                 third_author := some (names.getD 2 ""), raw_text := raw }
        else
          some { author := first, year := year, raw_text := raw }
    else
      some { author := chain, year := year, raw_text := raw }

/-- Fold a handler over `pattern.finditer(text)`. -/
def foldMatches (text : String) (re : RE) (st : ExtractState)
    (f : ExtractState → List Char → RMatch → ExtractState) : ExtractState :=
  (reFinditer re text).foldl (fun s m => f s text.data m) st

/-- `AuthorDateExtractor.extract_from_text`, handlers in source order:
multi-citations first, then patterns 6, 5, 0, 1, 2, 3, 7, 8, 9, 10,
14, 15, 4, 11, 12, 13, the trigger-by pattern and the trigger
pattern. -/
def extractFromText (text : String) : List AuthorYearCitation :=
  if text = "" then []
  else
    let st : ExtractState := {}
    let st := foldMatches text multiCitationRE st fun st ctx m =>
      let inner := grpStr ctx m 1
      if strContains inner ";" then
        let st1 := { st with foundSpans := (m.start, m.stop) :: st.foundSpans }
        (pySplitSemicolon inner).foldl (fun st seg =>
          let seg := pyStrip seg
          if seg = "" then st
          else (parseMultiAuthorSegment seg (matchStr ctx m)).foldl
            (fun st c => addIfNew st c m.start m.stop false) st) st1
      else st
    let st := foldMatches text pat6 st fun st ctx m =>
      addIfNew st { author := grpStr ctx m 1, year := grpStr ctx m 3,
                    second_author := some (grpStr ctx m 2),
                    raw_text := matchStr ctx m } m.start m.stop true
    let st := foldMatches text pat5 st fun st ctx m =>
      addIfNew st { author := grpStr ctx m 1, year := grpStr ctx m 2,
                    is_et_al := true, raw_text := matchStr ctx m }
        m.start m.stop true
    let st := foldMatches text pat0 st fun st ctx m =>
      addIfNew st { author := grpStr ctx m 1, year := grpStr ctx m 2,
                    is_et_al := true, raw_text := matchStr ctx m }
        m.start m.stop true
    let st := foldMatches text pat1 st fun st ctx m =>
      addIfNew st { author := grpStr ctx m 1, year := grpStr ctx m 3,
                    second_author := some (grpStr ctx m 2),
                    raw_text := matchStr ctx m } m.start m.stop true
    let st := foldMatches text pat2 st fun st ctx m =>
      let raw := matchStr ctx m
      if strContains (pyLower raw) "et al" || strContains raw "&"
          || strContains (pyLower raw) " and " then st
      else
        addIfNew st { author := grpStr ctx m 1, year := grpStr ctx m 2,
                      page := capStr ctx m.caps 3, raw_text := raw }
          m.start m.stop true
    let st := foldMatches text pat3 st fun st ctx m =>
      addIfNew st { author := grpStr ctx m 1, year := grpStr ctx m 2,
                    page := capStr ctx m.caps 3, raw_text := matchStr ctx m }
        m.start m.stop true
    let st := foldMatches text pat7 st fun st ctx m =>
      addIfNew st { author := grpStr ctx m 1, year := grpStr ctx m 2,
                    is_et_al := true, raw_text := matchStr ctx m }
        m.start m.stop true
    let st := foldMatches text pat8 st fun st ctx m =>
      addIfNew st { author := grpStr ctx m 1, year := grpStr ctx m 2,
                    raw_text := matchStr ctx m } m.start m.stop true
    let st := foldMatches text pat9 st fun st ctx m =>
      addIfNew st { author := grpStr ctx m 1, year := grpStr ctx m 2,
                    is_et_al := true, raw_text := matchStr ctx m }
        m.start m.stop true
    let st := foldMatches text pat10 st fun st ctx m =>
      let author := grpStr ctx m 1
      (reFindall (yearRE false) (grpStr ctx m 2)).foldl (fun st y =>
        addIfNew st { author := author, year := y,
                      raw_text := matchStr ctx m } m.start m.stop false) st
    let st := foldMatches text pat14 st fun st ctx m =>
      addIfNew st { author := pyStrip (grpStr ctx m 1),
                    year := grpStr ctx m 2, raw_text := matchStr ctx m }
        m.start m.stop true
    let st := foldMatches text pat15 st fun st ctx m =>
      addIfNew st { author := pyStrip (grpStr ctx m 1),
                    year := grpStr ctx m 2, raw_text := matchStr ctx m }
        m.start m.stop true
    let st := foldMatches text pat4 st fun st ctx m =>
      addIfNew st { author := grpStr ctx m 1, year := grpStr ctx m 2,
                    raw_text := matchStr ctx m } m.start m.stop true
    let st := foldMatches text pat11 st fun st ctx m =>
      addIfNew st { author := grpStr ctx m 1, year := grpStr ctx m 2,
                    raw_text := matchStr ctx m } m.start m.stop true
    let st := foldMatches text pat12 st fun st ctx m =>
      addIfNew st { author := grpStr ctx m 1, year := grpStr ctx m 3,
                    second_author := some (grpStr ctx m 2),
                    raw_text := matchStr ctx m } m.start m.stop true
    let st := foldMatches text pat13 st fun st ctx m =>
      addIfNew st { author := grpStr ctx m 1, year := grpStr ctx m 2,
                    is_et_al := true, raw_text := matchStr ctx m }
        m.start m.stop true
    let st := foldMatches text triggerByPatternRE st fun st ctx m =>
      match parseAuthorChain (grpStr ctx m 1) (grpStr ctx m 2)
          (matchStr ctx m) with
      | some c => addIfNew st c m.start m.stop true
      | none => st
    let st := foldMatches text triggerPatternRE st fun st ctx m =>
      match parseAuthorChain (grpStr ctx m 1) (grpStr ctx m 2)
          (matchStr ctx m) with
      | some c => addIfNew st c m.start m.stop true
      | none => st
    st.citations

/-- The seen-set loop of `AuthorDateExtractor.get_unique_citations`. -/
def getUniqueCitationsAux (seen : List (String × String)) :
    List AuthorYearCitation → List AuthorYearCitation
  | [] => []
  | c :: rest =>
    if seen.contains c.searchKey then getUniqueCitationsAux seen rest
    else c :: getUniqueCitationsAux (c.searchKey :: seen) rest

/-- `AuthorDateExtractor.get_unique_citations`. -/
def getUniqueCitations (source : List AuthorYearCitation) :
    List AuthorYearCitation :=
  getUniqueCitationsAux [] source

/-- The module-level `extract_author_date_citations`. -/
def extractAuthorDateCitations (text : String) : List AuthorYearCitation :=
  getUniqueCitations (extractFromText text)

/-- Modelled from the spec: deduplication keeps, for each identity key
`(lower(primaryAuthor), year)`, exactly the first citation bearing it,
in first-occurrence order. -/
def specDedupFirst : List AuthorYearCitation → List AuthorYearCitation
  | [] => []
  | c :: rest =>
    c :: specDedupFirst (rest.filter fun d => d.searchKey != c.searchKey)
termination_by l => l.length
decreasing_by
  simp only [List.length_cons]
  exact Nat.lt_succ_of_le (List.length_filter_le _ _)

/-- The seen-set loop equals first-occurrence dedup of the part of the
list whose keys are not yet seen. -/
lemma getUniqueCitationsAux_eq_spec (l : List AuthorYearCitation) :
    ∀ seen, getUniqueCitationsAux seen l =
      specDedupFirst (l.filter fun c => !(seen.contains c.searchKey)) := by
  induction l with
  | nil => intro seen; simp [getUniqueCitationsAux, specDedupFirst]
  | cons c rest ih =>
    intro seen
    rw [getUniqueCitationsAux, List.filter_cons]
    cases hc : seen.contains c.searchKey with
    | true => simpa [hc] using ih seen
    | false =>
      simp only [hc, Bool.not_false, if_true, if_false, specDedupFirst]
      refine congrArg (c :: ·) ?_
      rw [ih (c.searchKey :: seen), List.filter_filter]
      refine congrArg (fun p => specDedupFirst (List.filter p rest)) ?_
      funext d
      rw [List.contains_cons]
      cases hd : d.searchKey == c.searchKey <;>
        simp [bne, hd]

/-- Everything the seen-set loop emits has a key outside `seen`. -/
lemma mem_getUniqueCitationsAux {x : AuthorYearCitation} :
    ∀ (l : List AuthorYearCitation) (seen : List (String × String)),
      x ∈ getUniqueCitationsAux seen l →
      seen.contains x.searchKey = false := by
  intro l
  induction l with
  | nil => intro seen h; simp [getUniqueCitationsAux] at h
  | cons c rest ih =>
    intro seen h
    rw [getUniqueCitationsAux] at h
    by_cases hc : seen.contains c.searchKey
    · rw [if_pos hc] at h
      exact ih seen h
    · rw [if_neg hc] at h
      rcases List.mem_cons.mp h with rfl | hmem
      · simpa using hc
      · have h2 := ih (c.searchKey :: seen) hmem
        rw [List.contains_cons] at h2
        exact (Bool.or_eq_false_iff.mp h2).2

/-- The seen-set loop never emits two citations with the same key. -/
lemma pairwise_getUniqueCitationsAux :
    ∀ (l : List AuthorYearCitation) (seen : List (String × String)),
      (getUniqueCitationsAux seen l).Pairwise
        (fun a b => a.searchKey ≠ b.searchKey) := by
  intro l
  induction l with
  | nil => intro seen; simp [getUniqueCitationsAux]
  | cons c rest ih =>
    intro seen
    rw [getUniqueCitationsAux]
    by_cases hc : seen.contains c.searchKey
    · rw [if_pos hc]; exact ih seen
    · rw [if_neg hc]
      refine List.Pairwise.cons (fun b hb => ?_) (ih _)
      have h2 := mem_getUniqueCitationsAux rest (c.searchKey :: seen) hb
      rw [List.contains_cons] at h2
      have h3 := (Bool.or_eq_false_iff.mp h2).1
      intro hk
      rw [hk] at h3
      simp at h3

/-- Every key of the input keeps a representative in the loop's
output, provided it is not already seen. -/
lemma exists_key_rep :
    ∀ (l : List AuthorYearCitation) (seen : List (String × String))
      (c : AuthorYearCitation), c ∈ l →
      seen.contains c.searchKey = false →
      ∃ d ∈ getUniqueCitationsAux seen l, d.searchKey = c.searchKey := by
  intro l
  induction l with
  | nil => intro seen c hc; simp at hc
  | cons a rest ih =>
    intro seen c hc hseen
    rw [getUniqueCitationsAux]
    by_cases h : seen.contains a.searchKey
    · rw [if_pos h]
      rcases List.mem_cons.mp hc with rfl | hmem
      · rw [hseen] at h; cases h
      · exact ih seen c hmem hseen
    · rw [if_neg h]
      rcases List.mem_cons.mp hc with rfl | hmem
      · exact ⟨c, List.mem_cons_self c _, rfl⟩
      · by_cases hk : c.searchKey = a.searchKey
        · exact ⟨a, List.mem_cons_self a _, hk.symm⟩
        · obtain ⟨d, hd, hdk⟩ := ih (a.searchKey :: seen) c hmem
            (by rw [List.contains_cons, hseen, Bool.or_false]
                exact beq_eq_false_iff_ne.mpr hk)
          exact ⟨d, List.mem_cons_of_mem a hd, hdk⟩

set_option maxRecDepth 100000 in
/-- **C8** (Span exclusivity).  The multi-citation handler runs first,
splits the semicolon-joined parenthetical and claims its span, so the
extractor yields exactly the two citations `(Annin, 1968, et al.)`
(with Boring and Watson as second and third authors) and
`(Endler, 1987)` — no single-citation pattern produces a spurious
third match from the already-claimed span. -/
theorem c8_span_exclusivity :
    extractFromText "(Annin, Boring, & Watson, 1968; Endler, 1987)" =
      [{ author := "Annin", year := "1968", is_et_al := true,
         second_author := some "Boring", third_author := some "Watson",
         raw_text := "(Annin, Boring, & Watson, 1968; Endler, 1987)" },
       { author := "Endler", year := "1987",
         raw_text := "(Annin, Boring, & Watson, 1968; Endler, 1987)" }] := by
  decide

set_option maxRecDepth 100000 in
/-- **C9** (Dedup invariant).  The unique-citation list handed to the
resolver is exactly first-occurrence deduplication by the identity key
`(lower(author), year)`: it equals the spec-side `specDedupFirst`, no
two of its entries share a key, and every key of the input keeps a
representative.  The multi-year parenthetical
`(Simonton, 1992, 2000, 2002)` contributes one citation per distinct
year, all three surviving deduplication. -/
theorem c9_dedup_invariant :
    (∀ l : List AuthorYearCitation,
        getUniqueCitations l = specDedupFirst l
      ∧ (getUniqueCitations l).Pairwise
          (fun a b => a.searchKey ≠ b.searchKey)
      ∧ ∀ c ∈ l, ∃ d ∈ getUniqueCitations l, d.searchKey = c.searchKey)
  ∧ extractAuthorDateCitations "(Simonton, 1992, 2000, 2002)" =
      [{ author := "Simonton", year := "1992",
         raw_text := "(Simonton, 1992, 2000, 2002)" },
       { author := "Simonton", year := "2000",
         raw_text := "(Simonton, 1992, 2000, 2002)" },
       { author := "Simonton", year := "2002",
         raw_text := "(Simonton, 1992, 2000, 2002)" }] := by
  constructor
  · intro l
    refine ⟨?_, pairwise_getUniqueCitationsAux l [],
            fun c hc => exists_key_rep l [] c hc rfl⟩
    simpa [getUniqueCitations] using getUniqueCitationsAux_eq_spec l []
  · decide

/-- C9 witness input. -/
def c9DupA : AuthorYearCitation := { author := "Smith", year := "2020" }

/-- C9 witness input with a fresh key. -/
def c9DupB : AuthorYearCitation := { author := "Jones", year := "2021" }

/-- C9 witness input sharing the first input's identity key after
lowercasing and stripping. -/
def c9DupA2 : AuthorYearCitation :=
  { author := " SMITH ", year := "2020", raw_text := "dup" }

/-- C9 witness: the duplicate-keyed third citation keeps a
representative in the deduplicated list. -/
theorem c9_dedup_invariant_witness :
    ∃ d ∈ getUniqueCitations [c9DupA, c9DupB, c9DupA2],
      d.searchKey = c9DupA2.searchKey :=
  (c9_dedup_invariant.1 [c9DupA, c9DupB, c9DupA2]).2.2 c9DupA2 (by decide)

set_option maxRecDepth 100000 in
/-- **C10** (`n.d.` short-circuit).  For every provider environment and
query, `search` with year `"n.d."` returns the unresolved sentinel at
once with an all-false call trace — no provider, scorer or AI tier and
no verifier is ever invoked — while the extractor does recognise and
emit citations whose year is the literal `"n.d."`. -/
theorem c10_nd_short_circuit :
    (∀ (env : ResolverEnv) (author : String) (sa ta : Option String),
        search env author "n.d." sa ta =
          ((Except.ok none : Except PyError (Option CitationMetadata)),
           ({} : SearchTrace)))
  ∧ extractFromText "(Smith, n.d.)" =
      [{ author := "Smith", year := "n.d.", raw_text := "(Smith, n.d.)" }] :=
  ⟨fun _ _ _ _ => rfl, by decide⟩
